import Mathlib

set_option maxRecDepth 10000

/-!
Verification development for the AlgorithmicTrading repository's backtesting
core.  The Python sources under `backend/app/core` are shallowly embedded:
pandas DataFrames become lists of records with rational fields, pandas NaN
cells become `Option` values, wall-clock timestamps become rational numbers
threaded explicitly, and Python exceptions become explicit error values.
Irrational auxiliary functions that pandas/numpy provide (square root,
log1p, real powers) are abstracted into an `Oracle` record so that every
statement is proved for all oracles or for an explicit rational witness
oracle; no decision made by the embedded code depends on oracle values
except where explicitly noted.
-/

namespace AlgoTrading

/-- Decidable equality for `Except` results (used only to state and decide
concrete evaluations). -/
instance instDecEqExcept {ε α : Type _} [DecidableEq ε] [DecidableEq α] :
    DecidableEq (Except ε α) := fun x y =>
  match x, y with
  | .ok a, .ok b => if h : a = b then .isTrue (by rw [h]) else .isFalse (by simp [h])
  | .error a, .error b => if h : a = b then .isTrue (by rw [h]) else .isFalse (by simp [h])
  | .ok _, .error _ => .isFalse (by simp)
  | .error _, .ok _ => .isFalse (by simp)

/-! ## Data model

One OHLCV bar.  `bid`/`ask` are optional quote columns (the source checks
for their presence before the spread filter).  The Python `open` column is
named `open_` because `open` is a Lean keyword.  Timestamps are rationals
(the source uses datetimes; only ordering and differences matter here). -/

structure Bar where
  ts : ℚ
  open_ : ℚ
  high : ℚ
  low : ℚ
  close : ℚ
  volume : ℚ
  bid : Option ℚ := none
  ask : Option ℚ := none
deriving DecidableEq, Repr

instance : Inhabited Bar := ⟨{ ts := 0, open_ := 0, high := 0, low := 0, close := 0, volume := 0 }⟩

/-! ## `strategy.py`: `StrategyParameters` (dataclass defaults from the source).
The EMA periods are ints in the source but flow through `ewm(span=...)`
arithmetic (and the optimizer's grids hold floats), so they are rationals. -/

structure StrategyParameters where
  short_ema_period : ℚ := 9
  long_ema_period : ℚ := 21
  take_profit_pct : ℚ := 2
  stop_loss_pct : ℚ := 1
  position_size_pct : ℚ := 1
  min_volume : ℚ := 1000
  max_spread_pct : ℚ := 1/2
deriving DecidableEq, Repr

/-- The strategy's mutable `current_position` dict: the source reads the keys
`type`, `price`, `stop_loss`, `take_profit` (it also reads `price` into an
unused local `entry_price`). -/
structure PosSnapshot where
  ty : String
  price : ℚ
  stop_loss : ℚ
  take_profit : ℚ
deriving DecidableEq, Repr

/-- `MomentumStrategy` instance state: `self.params`, `self.current_position`,
`self.last_signal`. -/
structure StrategyState where
  params : StrategyParameters
  current_position : Option PosSnapshot := none
  last_signal : Option String := none
deriving DecidableEq, Repr

/-- `MomentumStrategy.__init__`: stores `parameters or StrategyParameters()`
and initialises the position tracker.  No validation of any kind is
performed on the parameters. -/
def momentumStrategyNew (parameters : Option StrategyParameters) : StrategyState :=
  { params := parameters.getD {}, current_position := none, last_signal := none }

/-- `calculate_ema`: `prices.ewm(span=period, adjust=False).mean()`, i.e. the
recurrence y0 = x0, y_t = (1-a)*y_{t-1} + a*x_t with a = 2/(period+1). -/
def calculateEma (prices : List ℚ) (period : ℚ) : List ℚ :=
  match prices with
  | [] => []
  | p :: ps => ps.scanl (fun y x => (1 - 2 / (period + 1)) * y + 2 / (period + 1) * x) p

/-- A row of `generate_signals`' output frame: the input bar plus the
`short_ema`, `long_ema`, `signal` and `signal_change` columns.
`signal_change = signal.diff()` is NaN on the first row, hence `Option`. -/
structure SigBar extends Bar where
  short_ema : ℚ
  long_ema : ℚ
  signal : Int
  signal_change : Option Int
deriving DecidableEq, Repr

instance : Inhabited SigBar :=
  ⟨{ toBar := default, short_ema := 0, long_ema := 0, signal := 0, signal_change := none }⟩

/-- The `signal` column: 0 by default, 1 where `short_ema > long_ema`,
-1 where `short_ema < long_ema`. -/
def emaSignal (s l : ℚ) : Int :=
  if s > l then 1 else if s < l then -1 else 0

/-- `MomentumStrategy.generate_signals`: adds the two EMA columns, the
crossover `signal` column and its discrete difference `signal_change`. -/
def generateSignals (params : StrategyParameters) (data : List Bar) : List SigBar :=
  let closes := data.map Bar.close
  let shortE := calculateEma closes params.short_ema_period
  let longE := calculateEma closes params.long_ema_period
  let sigs := (List.range data.length).map fun i => emaSignal (shortE.getD i 0) (longE.getD i 0)
  (List.range data.length).map fun i =>
    { toBar := data.getD i default
      short_ema := shortE.getD i 0
      long_ema := longE.getD i 0
      signal := sigs.getD i 0
      signal_change := if i = 0 then none else some (sigs.getD i 0 - sigs.getD (i - 1) 0) }

/-- `MomentumStrategy.validate_trade_conditions`: volume filter then, when the
bid/ask quote columns are present, the spread filter.  (The source tests for
the `bid`/`ask` columns on the frame; here their presence is carried on the
row.) -/
def validateTradeConditions (params : StrategyParameters) (data : List SigBar) (index : ℕ) :
    Bool × String :=
  let row := data.getD index default
  if row.volume < params.min_volume then (false, "Insufficient volume")
  else
    match row.bid, row.ask with
    | some b, some a =>
        if (a - b) / b * 100 > params.max_spread_pct then (false, "Spread too high")
        else (true, "Valid")
    | _, _ => (true, "Valid")

/-- Trade intent dict produced by `get_trade_signal` (keys `type`, `price`,
`timestamp`, `take_profit`, `stop_loss`). -/
structure TradeSignal where
  ty : String
  price : ℚ
  timestamp : ℚ
  take_profit : ℚ
  stop_loss : ℚ
deriving DecidableEq, Repr

/-- Python `row["signal_change"] == 0`: NaN compares unequal to 0. -/
def sigChangeEqZero : Option Int → Bool
  | none => false
  | some x => x = 0

/-- Python `row["signal_change"] > 0` (NaN comparisons are false). -/
def sigChangePos : Option Int → Bool
  | none => false
  | some x => 0 < x

/-- Python `row["signal_change"] < 0` (NaN comparisons are false). -/
def sigChangeNeg : Option Int → Bool
  | none => false
  | some x => x < 0

/-- `MomentumStrategy.get_trade_signal`.  Needs `index >= 1`; returns none
when the crossover flag is zero or the market-condition filters fail;
otherwise builds the buy/sell intent with percent-offset stop/target. -/
def getTradeSignal (params : StrategyParameters) (data : List SigBar) (index : ℕ) :
    Option TradeSignal :=
  if index < 1 then none
  else
    let row := data.getD index default
    if sigChangeEqZero row.signal_change then none
    else if !(validateTradeConditions params data index).1 then none
    else if sigChangePos row.signal_change then
      some { ty := "buy", price := row.close, timestamp := row.ts
             take_profit := row.close * (1 + params.take_profit_pct / 100)
             stop_loss := row.close * (1 - params.stop_loss_pct / 100) }
    else if sigChangeNeg row.signal_change then
      some { ty := "sell", price := row.close, timestamp := row.ts
             take_profit := row.close * (1 - params.take_profit_pct / 100)
             stop_loss := row.close * (1 + params.stop_loss_pct / 100) }
    else none

/-- `MomentumStrategy.should_exit_position`.  Reads the strategy object's own
`current_position` field (passed here explicitly as `cp`); when it is unset
the function reports no exit.  Stop is checked before target for longs, and
mirrored for shorts; a signal opposite to the position direction also exits. -/
def shouldExitPosition (cp : Option PosSnapshot) (data : List SigBar) (index : ℕ) :
    Bool × String :=
  match cp with
  | none => (false, "No position")
  | some pos =>
    let row := data.getD index default
    if pos.ty = "buy" then
      if row.low ≤ pos.stop_loss then (true, "Stop loss hit")
      else if row.high ≥ pos.take_profit then (true, "Take profit hit")
      else if row.signal = -1 then (true, "Signal reversal")
      else (false, "Hold position")
    else
      if row.high ≥ pos.stop_loss then (true, "Stop loss hit")
      else if row.low ≤ pos.take_profit then (true, "Take profit hit")
      else if row.signal = 1 then (true, "Signal reversal")
      else (false, "Hold position")

/-! ## `risk_manager.py` -/

structure RiskParameters where
  max_position_size : ℚ := 1000
  max_daily_drawdown : ℚ := 5
  max_trades_per_day : ℕ := 10
  max_concurrent_trades : ℕ := 2
  min_trade_size : ℚ := 10
  max_leverage : ℚ := 1
  emergency_stop_loss : ℚ := 15
  volatility_threshold : ℚ := 30
deriving DecidableEq, Repr

/-- An entry of `self.trade_history` (the source stores a dict; only the
`timestamp` key is ever read back, by the daily reset filter). -/
structure HistEntry where
  trade_id : String := ""
  timestamp : ℚ := 0
deriving DecidableEq, Repr

/-- An entry of `self.open_positions` (`size`/`price` are read with
`.get(key, 0)` by the exposure computation). -/
structure OpenPos where
  size : ℚ := 0
  price : ℚ := 0
deriving DecidableEq, Repr

/-- `RiskManager` instance state.  Time is a rational number of days, so the
`timedelta(days=1)` window is the constant 1. -/
structure RiskState where
  params : RiskParameters
  trade_history : List HistEntry := []
  open_positions : List (String × OpenPos) := []
  daily_pnl : ℚ := 0
  last_reset : ℚ := 0
deriving DecidableEq, Repr

/-- `RiskManager.reset_daily_metrics`, with `datetime.now()` passed in as
`now`: when strictly more than one day elapsed since `last_reset`, zero the
daily P&L, keep only history entries younger than one day, and stamp the
reset. -/
def resetDailyMetrics (now : ℚ) (s : RiskState) : RiskState :=
  if now - s.last_reset > 1 then
    { s with daily_pnl := 0
             trade_history := s.trade_history.filter fun t => t.timestamp > now - 1
             last_reset := now }
  else s

/-- `RiskManager.validate_trade`: resets stale daily metrics, then runs the
six checks in source order, first failure winning.  Returns the (possibly
reset) state together with the `(is_valid, reason)` decision.  The
stop-distance percentage `abs((stop_loss - price) / price * 100)` divides by
`price`; in the engine path the operands are numpy float64 scalars off a
pandas row, so a zero price makes the quotient `±inf` — which exceeds any
bound, so the check rejects — unless `stop_loss` is also zero, when `0/0`
is NaN and the NaN comparison is false, so the check passes.  The check-5
condition below spells out exactly these semantics; the nonzero-price arm
is the ordinary finite comparison. -/
def validateTrade (now : ℚ) (s : RiskState) (_trade_type : String)
    (size price stop_loss take_profit : ℚ) : RiskState × (Bool × String) :=
  let s := resetDailyMetrics now s
  if s.trade_history.length ≥ s.params.max_trades_per_day then
    (s, (false, "Maximum daily trades exceeded"))
  else if s.open_positions.length ≥ s.params.max_concurrent_trades then
    (s, (false, "Maximum concurrent positions reached"))
  else if size > s.params.max_position_size then
    (s, (false, "Position size exceeds maximum allowed"))
  else if size < s.params.min_trade_size then
    (s, (false, "Position size below minimum allowed"))
  else if (price = 0 ∧ stop_loss ≠ 0) ∨
      (price ≠ 0 ∧ |(stop_loss - price) / price * 100| > s.params.emergency_stop_loss) then
    (s, (false, "Stop loss exceeds maximum allowed"))
  else if |price - stop_loss| > 0 ∧ |take_profit - price| / |price - stop_loss| < 3/2 then
    (s, (false, "Insufficient risk/reward ratio"))
  else
    (s, (true, "Trade validated"))

/-! ## `models/trade.py`: the `Trade` record (backtest-relevant columns; the
ORM-only columns — ids, notes, timestamps of updates — are omitted). -/

structure Trade where
  ty : String
  status : String
  symbol : String
  entry_price : ℚ
  entry_time : ℚ
  size : ℚ
  stop_loss : ℚ
  take_profit : ℚ
  strategy_name : String
  fees : ℚ := 0
  exit_price : Option ℚ := none
  exit_time : Option ℚ := none
  realized_pnl : Option ℚ := none
deriving DecidableEq, Repr

/-- `Trade.close_trade`: stamps the exit, flips the status to closed and
realises `(exit - entry) * size - fees`, the price difference negated for
sell positions. -/
def closeTrade (t : Trade) (exit_price exit_time : ℚ) : Trade :=
  let price_diff := exit_price - t.entry_price
  let price_diff := if t.ty = "sell" then -price_diff else price_diff
  { t with exit_price := some exit_price
           exit_time := some exit_time
           status := "closed"
           realized_pnl := some (price_diff * t.size - t.fees) }

/-! ## `engine.py` -/

structure BacktestParameters where
  initial_capital : ℚ := 10000
  trading_fees : ℚ := 1/1000
  slippage : ℚ := 1/1000
  include_fees : Bool := true
  include_slippage : Bool := true
  enable_fractional : Bool := true
deriving DecidableEq, Repr

/-- Irrational numeric helpers used only inside formulas (never by control
decisions of the simulation loop): numpy `sqrt`, `log1p`, and the float
power `b ** e`.  Theorems quantify over the oracle or instantiate it with
`oracle0` below. -/
structure Oracle where
  sqrtQ : ℚ → ℚ
  log1pQ : ℚ → ℚ
  rpowQ : ℚ → ℚ → ℚ

/-- Newton-iteration integer square root with explicit fuel (structural
recursion, so that concrete witnesses evaluate inside the kernel). -/
def natSqrtIter (n : ℕ) : ℕ → ℕ → ℕ
  | 0, guess => guess
  | fuel + 1, guess =>
    let next := (guess + n / guess) / 2
    if next < guess then natSqrtIter n fuel next else guess

/-- Integer square root (agrees with `Nat.sqrt` on every input a witness
evaluates; exactness is only ever used on perfect squares). -/
def natSqrt (n : ℕ) : ℕ :=
  if n ≤ 1 then n else natSqrtIter n n (n / 2)

/-- Exact rational square root when numerator and denominator are perfect
squares (the only points where witnesses evaluate it); integer-sqrt rounding
otherwise. -/
def ratSqrt (q : ℚ) : ℚ :=
  (natSqrt q.num.toNat : ℚ) / (natSqrt q.den : ℚ)

/-- Witness oracle: exact square roots on perfect squares; placeholder
`log1p`/power (no theorem depends on their values). -/
def oracle0 : Oracle :=
  { sqrtQ := ratSqrt, log1pQ := fun x => x, rpowQ := fun _ _ => 0 }

/-- Python exceptions the engine can actually raise, as explicit values.
`seriesIndexMismatch` is pandas' ValueError for `pd.Series(values, index)`
with mismatched lengths (raised by `_update_equity_curve`);
`ambiguousSeriesTruth` is the ValueError for `bool(series)` on a series
whose length is not 1 (the `not self.equity_curve` in `_calculate_metrics`);
`zeroDivisionDays` is the ZeroDivisionError for `365 / elapsed.days` when
the equity curve spans less than a day. -/
inductive EngineError where
  | seriesIndexMismatch
  | ambiguousSeriesTruth
  | zeroDivisionDays
deriving DecidableEq, Repr

/-- A pandas Series of metric values keyed by name. -/
abbrev MetricMap := List (String × ℚ)

/-- The equity curve: a pandas Series mapping timestamps to equity. -/
abbrev EquityCurve := List (ℚ × ℚ)

/-- `BacktestResults` dataclass. -/
structure BacktestResults where
  trades : List Trade
  equity_curve : Option EquityCurve
  performance_metrics : MetricMap
  trade_metrics : MetricMap
  drawdown_metrics : MetricMap
  parameter_values : MetricMap
deriving DecidableEq, Repr

/-- `BacktestingEngine` instance state: the strategy and risk manager it
owns, its parameters, and the per-run `trades`/`equity_curve` fields. -/
structure EngineState where
  strategy : StrategyState
  risk : RiskState
  params : BacktestParameters
  trades : List Trade := []
  equity_curve : Option EquityCurve := none
deriving DecidableEq, Repr

/-- `BacktestingEngine.__init__`: stores the collaborators and parameters
(defaulting the optional ones) and clears the per-run fields.  No
validation of any parameter is performed. -/
def backtestingEngineNew (strategy : StrategyState) (risk_manager : Option RiskState)
    (parameters : Option BacktestParameters) : EngineState :=
  { strategy := strategy
    risk := risk_manager.getD { params := {} }
    params := parameters.getD {}
    trades := []
    equity_curve := none }

/-- `_apply_slippage`: buys become more expensive, sells cheaper. -/
def applySlippage (bp : BacktestParameters) (price : ℚ) (trade_type : String) : ℚ :=
  if !bp.include_slippage then price
  else price * (if trade_type = "buy" then 1 + bp.slippage else 1 - bp.slippage)

/-- `_calculate_position_size`: slippage-adjusted price, capital-fraction
size, fee deduction, optional floor to whole units. -/
def calculatePositionSize (bp : BacktestParameters) (sp : StrategyParameters)
    (capital price : ℚ) (trade_type : String) : ℚ × ℚ :=
  let adjusted_price := applySlippage bp price trade_type
  let position_size := capital * sp.position_size_pct / 100 / adjusted_price
  let position_size :=
    if bp.include_fees then
      position_size - position_size * adjusted_price * bp.trading_fees / adjusted_price
    else position_size
  let position_size :=
    if !bp.enable_fractional then ((⌊position_size⌋ : ℤ) : ℚ) else position_size
  (position_size, adjusted_price)

/-- `_execute_trade`: builds the open `Trade`, or `none` when the computed
size is not positive. -/
def executeTrade (bp : BacktestParameters) (sp : StrategyParameters)
    (trade_type : String) (price timestamp available_capital : ℚ) : Option Trade :=
  let (position_size, adjusted_price) :=
    calculatePositionSize bp sp available_capital price trade_type
  if position_size ≤ 0 then none
  else some
    { ty := trade_type
      status := "open"
      symbol := "BTC-USD"
      entry_price := adjusted_price
      entry_time := timestamp
      size := position_size
      stop_loss := sp.stop_loss_pct
      take_profit := sp.take_profit_pct
      strategy_name := "MomentumStrategy"
      fees := if bp.include_fees then position_size * adjusted_price * bp.trading_fees else 0 }

/-- Label assignment `series[timestamp] = value` on a pandas Series:
overwrite an existing label, else append. -/
def seriesSet (c : EquityCurve) (ts v : ℚ) : EquityCurve :=
  if c.any (fun p => p.1 = ts) then c.map (fun p => if p.1 = ts then (ts, v) else p)
  else c ++ [(ts, v)]

/-- `_update_equity_curve`: appends to the running history list and then
either assigns into the existing Series or — on the first call — builds
`pd.Series(equity_history, index=[timestamp])`.  pandas raises a
ValueError whenever the data list and the one-element index differ in
length, i.e. whenever the appended history has length ≠ 1. -/
def updateEquityCurve (curve : Option EquityCurve) (equity_history : List ℚ)
    (timestamp current_equity : ℚ) : Except EngineError (List ℚ × Option EquityCurve) :=
  let equity_history := equity_history ++ [current_equity]
  match curve with
  | none =>
      -- a one-element history can only be the value just appended
      if equity_history.length = 1 then
        .ok (equity_history, some [(timestamp, current_equity)])
      else .error .seriesIndexMismatch
  | some c => .ok (equity_history, some (seriesSet c timestamp current_equity))

/-! ### `_calculate_metrics` -/

/-- `np.mean` over a list (`np.mean([])` is NaN with a warning; that case is
reached only from code paths shown unreachable below, and is rendered 0 by
rational division by zero). -/
def listMean (l : List ℚ) : ℚ := l.sum / (l.length : ℚ)

/-- pandas sample variance (`ddof=1`). -/
def sampleVar (l : List ℚ) : ℚ :=
  (l.map fun x => (x - listMean l) ^ 2).sum / ((l.length : ℚ) - 1)

/-- pandas `Series.std()`. -/
def sampleStd (o : Oracle) (l : List ℚ) : ℚ := o.sqrtQ (sampleVar l)

/-- `min()` of a nonempty series (0 for the empty list, which no call site
produces). -/
def listMinD : List ℚ → ℚ
  | [] => 0
  | x :: xs => xs.foldl min x

/-- Python truthiness chain `t.realized_pnl and t.realized_pnl > 0`
(both `None` and `0.0` are falsy). -/
def pnlPos (t : Trade) : Bool :=
  match t.realized_pnl with
  | some v => decide (0 < v)
  | none => false

/-- Python truthiness chain `t.realized_pnl and t.realized_pnl <= 0`:
a trade with `realized_pnl == 0.0` is excluded by the truthiness test. -/
def pnlNonposTruthy (t : Trade) : Bool :=
  match t.realized_pnl with
  | some v => decide (v ≠ 0) && decide (v ≤ 0)
  | none => false

/-- The metric formulas of `_calculate_metrics`, evaluated once control has
passed the truthiness guards (which, as proved below, only ever happens for
a one-sample equity curve; the elapsed `timedelta.days` is then 0 and the
`365 / days` in `annualized_return` raises ZeroDivisionError, so the code
after that division is unreachable from `run_backtest` — pandas NaN
propagation inside those dead statistics is therefore not modelled, and
`np.mean`/`std` of empty lists appear as rational division by zero). -/
def metricsBody (o : Oracle) (c : EquityCurve) (trades : List Trade) :
    Except EngineError (MetricMap × MetricMap × MetricMap) :=
  let vals := c.map Prod.snd
  let v0 := vals.headD 0
  let vlast := vals.getLastD 0
  -- returns = equity_curve.pct_change().dropna()
  let returns := (List.range vals.length).filterMap fun i =>
    if i = 0 then none
    else some ((vals.getD i 0 - vals.getD (i - 1) 0) / vals.getD (i - 1) 0)
  let total_return := (vlast / v0 - 1) * 100
  -- (curve.index[-1] - curve.index[0]).days, i.e. the floor of the elapsed days
  let days : ℤ := ⌊(c.getLastD (0, 0)).1 - (c.headD (0, 0)).1⌋
  if days = 0 then .error .zeroDivisionDays
  else
    let annualized := (o.rpowQ (1 + (vlast / v0 - 1)) (365 / (days : ℚ)) - 1) * 100
    let sharpe :=
      if sampleStd o returns ≠ 0 then listMean returns / sampleStd o returns * o.sqrtQ 252 else 0
    let negret := returns.filter fun r => r < 0
    let sortino :=
      if negret.length > 0 then listMean returns / sampleStd o negret * o.sqrtQ 252 else 0
    let performance_metrics : MetricMap :=
      [("total_return", total_return), ("annualized_return", annualized),
       ("sharpe_ratio", sharpe), ("sortino_ratio", sortino)]
    let profitable := trades.filter pnlPos
    let losing := trades.filter pnlNonposTruthy
    let trade_metrics : MetricMap :=
      [("total_trades", (trades.length : ℚ)),
       ("profitable_trades", (profitable.length : ℚ)),
       ("win_rate", if trades.length ≠ 0 then (profitable.length : ℚ) / (trades.length : ℚ) else 0),
       ("average_profit",
        if profitable.length ≠ 0 then listMean (profitable.map fun t => t.realized_pnl.getD 0) else 0),
       ("average_loss",
        if trades.length ≠ 0 then listMean (losing.map fun t => t.realized_pnl.getD 0) else 0),
       ("profit_factor",
        if trades.length ≠ 0 ∧ losing.length ≠ 0 then
          (profitable.map fun t => t.realized_pnl.getD 0).sum /
            |(losing.map fun t => t.realized_pnl.getD 0).sum| else 0)]
    -- rolling_max = curve.expanding().max(); drawdowns = (curve - rolling_max)/rolling_max*100
    let rolling_max := match vals with | [] => [] | v :: vs => vs.scanl max v
    let drawdowns := List.zipWith (fun v m => (v - m) / m * 100) vals rolling_max
    let negdd := drawdowns.filter fun d => d < 0
    let drawdown_metrics : MetricMap :=
      [("max_drawdown", |listMinD drawdowns|),
       ("avg_drawdown", if negdd.length > 0 then |listMean negdd| else 0),
       -- the groupby key `(dd[dd<0] >= 0).cumsum()` is constant on the
       -- filtered series, so `.size().max()` is its total length
       ("max_drawdown_duration", if negdd.length > 0 then (negdd.length : ℚ) else 0)]
    .ok (performance_metrics, trade_metrics, drawdown_metrics)

/-- `_calculate_metrics`: the guard `if not self.equity_curve or not
self.trades: return {}, {}, {}`.  `not None` is true; `bool(series)` raises
ValueError unless the series has exactly one element, in which case it is
the truthiness of that element. -/
def calculateMetrics (o : Oracle) (curve : Option EquityCurve) (trades : List Trade) :
    Except EngineError (MetricMap × MetricMap × MetricMap) :=
  match curve with
  | none => .ok ([], [], [])
  | some c =>
    match c with
    | [] => .error .ambiguousSeriesTruth
    | [(t0, v0)] =>
        if v0 = 0 then .ok ([], [], [])
        else if trades.isEmpty then .ok ([], [], [])
        else metricsBody o [(t0, v0)] trades
    | _ => .error .ambiguousSeriesTruth

/-! ### the simulation loop of `run_backtest` -/

/-- The local state of `run_backtest`'s bar loop: the engine-owned risk
manager, the local `current_position`/`available_capital`/`equity_history`
variables, and the engine fields `trades`/`equity_curve` it mutates. -/
structure LoopState where
  risk : RiskState
  currentPosition : Option Trade
  availableCapital : ℚ
  equityHistory : List ℚ
  trades : List Trade
  equityCurve : Option EquityCurve
deriving DecidableEq, Repr

/-- One iteration of the `for i in range(1, len(signals_data))` loop.
`clock i` is the `datetime.now()` the risk manager would observe at bar `i`.
`cp` is the strategy object's `current_position` field, which nothing in the
engine ever assigns.  Returns `(some error, state)` when the iteration
raises. -/
def simStep (clock : ℕ → ℚ) (bp : BacktestParameters) (sp : StrategyParameters)
    (cp : Option PosSnapshot) (sig : List SigBar) (i : ℕ) (ls : LoopState) :
    Option EngineError × LoopState :=
  let row := sig.getD i default
  let timestamp := row.ts
  match ls.currentPosition with
  | some pos =>
    let position_value := pos.size * row.close -
      (if bp.include_fees then pos.size * row.close * bp.trading_fees else 0)
    let current_equity := ls.availableCapital + position_value
    match updateEquityCurve ls.equityCurve ls.equityHistory timestamp current_equity with
    | .error e => (some e, ls)
    | .ok (eh, curve) =>
      let ls := { ls with equityHistory := eh, equityCurve := curve }
      if (shouldExitPosition cp sig i).1 then
        let exit_price := applySlippage bp row.close (if pos.ty = "buy" then "sell" else "buy")
        let pos := closeTrade pos exit_price timestamp
        (none, { ls with availableCapital := ls.availableCapital + position_value
                         trades := ls.trades ++ [pos]
                         currentPosition := none })
      else (none, ls)   -- still open: the `if not current_position` block is skipped
  | none =>
    match getTradeSignal sp sig i with
    | none => (none, ls)
    | some tsg =>
      let (risk, dec) := validateTrade (clock i) ls.risk tsg.ty
        (ls.availableCapital * sp.position_size_pct / 100) tsg.price tsg.stop_loss tsg.take_profit
      let ls := { ls with risk := risk }
      if dec.1 then
        match executeTrade bp sp tsg.ty tsg.price timestamp ls.availableCapital with
        | none => (none, ls)
        | some tr =>
          (none, { ls with
            currentPosition := some tr
            availableCapital := ls.availableCapital - (tr.size * tr.entry_price +
              (if bp.include_fees then tr.size * tr.entry_price * bp.trading_fees else 0)) })
      else (none, ls)

/-- The bar loop itself, aborted by the first raised error. -/
def simLoop (clock : ℕ → ℚ) (bp : BacktestParameters) (sp : StrategyParameters)
    (cp : Option PosSnapshot) (sig : List SigBar) :
    List ℕ → LoopState → Option EngineError × LoopState
  | [], ls => (none, ls)
  | i :: rest, ls =>
    match simStep clock bp sp cp sig i ls with
    | (some e, ls) => (some e, ls)
    | (none, ls) => simLoop clock bp sp cp sig rest ls

/-- The engine's parameter echo in `BacktestResults.parameter_values`. -/
def parameterValues (sp : StrategyParameters) : MetricMap :=
  [("short_ema_period", sp.short_ema_period), ("long_ema_period", sp.long_ema_period),
   ("take_profit_pct", sp.take_profit_pct), ("stop_loss_pct", sp.stop_loss_pct),
   ("position_size_pct", sp.position_size_pct)]

/-- `BacktestingEngine.run_backtest`: resets per-run state, generates the
signal frame, runs the bar loop from index 1, force-closes any position left
open at the last bar, computes metrics, and assembles `BacktestResults`.
Returns the engine state as mutated so far together with the result or the
raised error. -/
def runBacktest (o : Oracle) (clock : ℕ → ℚ) (st : EngineState) (data : List Bar) :
    EngineState × Except EngineError BacktestResults :=
  let st := { st with trades := [], equity_curve := none }
  let signals_data := generateSignals st.strategy.params data
  let ls0 : LoopState :=
    { risk := st.risk, currentPosition := none
      availableCapital := st.params.initial_capital
      equityHistory := [st.params.initial_capital]
      trades := [], equityCurve := none }
  match simLoop clock st.params st.strategy.params st.strategy.current_position signals_data
      (List.range' 1 (signals_data.length - 1)) ls0 with
  | (some e, ls) =>
    ({ st with risk := ls.risk, trades := ls.trades, equity_curve := ls.equityCurve }, .error e)
  | (none, ls) =>
    let ls :=
      match ls.currentPosition with
      | some pos =>
        let last := signals_data.getD (signals_data.length - 1) default
        let exit_price := applySlippage st.params last.close (if pos.ty = "buy" then "sell" else "buy")
        { ls with trades := ls.trades ++ [closeTrade pos exit_price last.ts]
                  currentPosition := none }
      | none => ls
    let st := { st with risk := ls.risk, trades := ls.trades, equity_curve := ls.equityCurve }
    match calculateMetrics o ls.equityCurve ls.trades with
    | .error e => (st, .error e)
    | .ok (pm, tm, dm) =>
      (st, .ok { trades := ls.trades
                 equity_curve := ls.equityCurve
                 performance_metrics := pm
                 trade_metrics := tm
                 drawdown_metrics := dm
                 parameter_values := parameterValues st.strategy.params })

/-! ### `optimize_strategy` (grid search) -/

/-- The keyword names accepted by `StrategyParameters(**param_dict)`. -/
inductive StratField where
  | shortEmaPeriod | longEmaPeriod | takeProfitPct | stopLossPct
  | positionSizePct | minVolume | maxSpreadPct
deriving DecidableEq, Repr

def setStratField (p : StrategyParameters) : StratField → ℚ → StrategyParameters
  | .shortEmaPeriod, v => { p with short_ema_period := v }
  | .longEmaPeriod, v => { p with long_ema_period := v }
  | .takeProfitPct, v => { p with take_profit_pct := v }
  | .stopLossPct, v => { p with stop_loss_pct := v }
  | .positionSizePct, v => { p with position_size_pct := v }
  | .minVolume, v => { p with min_volume := v }
  | .maxSpreadPct, v => { p with max_spread_pct := v }

/-- `StrategyParameters(**param_dict)`: dataclass defaults overridden by the
supplied keywords only. -/
def stratParamsOfDict (kvs : List (StratField × ℚ)) : StrategyParameters :=
  kvs.foldl (fun p kv => setStratField p kv.1 kv.2) {}

/-- `itertools.product(*param_values)`: the rightmost list varies fastest. -/
def cartProduct : List (List ℚ) → List (List ℚ)
  | [] => [[]]
  | xs :: rest => xs.flatMap fun x => (cartProduct rest).map fun combo => x :: combo

/-- `score > best_score` where a missing metric and the initial best are
`float("-inf")` (encoded as `none`; minus infinity is not greater than
itself). -/
def optGt : Option ℚ → Option ℚ → Bool
  | some a, some b => a > b
  | some _, none => true
  | none, _ => false

/-- `results.performance_metrics.get(optimization_metric, float("-inf"))`. -/
def lookupMetric (name : String) (m : MetricMap) : Option ℚ :=
  (m.find? fun p => p.1 = name).map Prod.snd

/-- The running best of the grid search. -/
structure OptBest where
  params : List (StratField × ℚ)
  results : Option BacktestResults
  score : Option ℚ
deriving DecidableEq, Repr

/-- The trial loop of `optimize_strategy`: overwrite `self.strategy.params`
from the combination, run the backtest, keep the first strictly-better
score.  An exception in a trial propagates. -/
def optimizeGo (o : Oracle) (clock : ℕ → ℚ) (data : List Bar) (metric : String)
    (keys : List StratField) :
    List (List ℚ) → EngineState → OptBest →
    EngineState × Except EngineError (List (StratField × ℚ) × Option BacktestResults)
  | [], st, best => (st, .ok (best.params, best.results))
  | combo :: rest, st, best =>
    let param_dict := keys.zip combo
    let st := { st with strategy := { st.strategy with params := stratParamsOfDict param_dict } }
    match runBacktest o clock st data with
    | (st, .error e) => (st, .error e)
    | (st, .ok results) =>
      let score := lookupMetric metric results.performance_metrics
      if optGt score best.score then
        optimizeGo o clock data metric keys rest st
          { params := param_dict, results := some results, score := score }
      else optimizeGo o clock data metric keys rest st best

/-- `BacktestingEngine.optimize_strategy`. -/
def optimizeStrategy (o : Oracle) (clock : ℕ → ℚ) (st : EngineState) (data : List Bar)
    (parameter_ranges : List (StratField × List ℚ)) (metric : String) :
    EngineState × Except EngineError (List (StratField × ℚ) × Option BacktestResults) :=
  optimizeGo o clock data metric (parameter_ranges.map Prod.fst)
    (cartProduct (parameter_ranges.map Prod.snd)) st
    { params := [], results := none, score := none }

/-! ## `data_processor.py` -/

/-- `DataValidationResult` dataclass (timestamps as rationals). -/
structure DataValidationResult where
  is_valid : Bool
  issues : List String
  gap_locations : List ℚ
  anomaly_locations : List ℚ
  total_missing_values : ℕ
deriving DecidableEq, Repr

/-- `DataProcessingConfig` dataclass.  Intervals/durations are rational
numbers of days (the source's `"1min"` string and `timedelta(minutes=5)`);
`cache_dir` is kept as an opaque string. -/
structure DataProcessingConfig where
  resample_interval : ℚ := 1/1440
  fill_gaps : Bool := true
  remove_outliers : Bool := true
  outlier_std_threshold : ℚ := 3
  min_volume_threshold : ℚ := 1/100
  validate_data : Bool := true
  max_gap_threshold : ℚ := 5/1440
  normalize_volume : Bool := true
  add_indicators : Bool := true
  cache_processed_data : Bool := true
  cache_dir : String := "data/cache"
deriving DecidableEq, Repr

/-- `max()` of a series (0 for the empty list; the only consumer compares
the result with `> 0`, which is false for pandas' empty-series NaN too). -/
def listMaxD : List ℚ → ℚ
  | [] => 0
  | x :: xs => xs.foldl max x

/-- `HistoricalDataProcessor._validate_raw_data`.  Bars are total records,
so the required-columns check never fires and `isna().sum().sum()` is 0;
the other checks are translated directly.  Issue-count messages are built
with `toString` in place of f-strings. -/
def validateRawData (o : Oracle) (cfg : DataProcessingConfig) (df : List Bar) :
    DataValidationResult :=
  let tss := df.map Bar.ts
  -- index.duplicated(): marks every occurrence after the first
  let dupCount := ((List.range df.length).filter fun i =>
    decide ((tss.take i).contains (tss.getD i 0))).length
  let issues₁ : List String :=
    if dupCount > 0 then ["Found " ++ toString dupCount ++ " duplicate timestamps"] else []
  -- gaps: consecutive deltas exceeding the configured interval (len > 1 only)
  let gapIdx : List ℕ :=
    if df.length > 1 then
      (List.range df.length).filter fun i =>
        decide (1 ≤ i) && decide (tss.getD i 0 - tss.getD (i - 1) 0 > cfg.resample_interval)
    else []
  let gap_locations := gapIdx.map fun i => tss.getD i 0
  let issues₂ : List String :=
    if gapIdx.length > 0 then ["Found " ++ toString gapIdx.length ++ " time gaps in data"] else []
  -- price anomalies: |close - mean| > k * std (std of len ≤ 1 is NaN, and
  -- comparisons against NaN are false, so no anomalies then)
  let closes := df.map Bar.close
  let anomaly_locations : List ℚ :=
    if df.length ≤ 1 then []
    else (df.filter fun b =>
      |b.close - listMean closes| > cfg.outlier_std_threshold * sampleStd o closes).map Bar.ts
  let issues₃ : List String :=
    if anomaly_locations.length > 0 then
      ["Found " ++ toString anomaly_locations.length ++ " price anomalies"] else []
  let issues₄ : List String :=
    if df.any fun b => b.close ≤ 0 then ["Found zero or negative prices"] else []
  let issues := issues₁ ++ issues₂ ++ issues₃ ++ issues₄
  { is_valid := issues.isEmpty
    issues := issues
    gap_locations := gap_locations
    anomaly_locations := anomaly_locations
    total_missing_values := 0 }

/-- pandas `Series.clip(lower, upper)` on one value. -/
def clipQ (v lo hi : ℚ) : ℚ := min (max v lo) hi

/-- One iteration of the outlier loop of `_clean_data`: clip one price
column to `[mean - k*std, mean + k*std]`.  For a column of length ≤ 1 the
sample std is NaN and clipping against NaN bounds changes nothing. -/
def clipColumn (o : Oracle) (k : ℚ) (get : Bar → ℚ) (set : Bar → ℚ → Bar)
    (bars : List Bar) : List Bar :=
  if bars.length ≤ 1 then bars
  else
    let xs := bars.map get
    let m := listMean xs
    let t := k * sampleStd o xs
    bars.map fun b => set b (clipQ (get b) (m - t) (m + t))

/-- `HistoricalDataProcessor._clean_data`: drop all-null rows (a no-op on
total bar records), clip each of open/high/low/close when outlier removal
is on, forward-fill short gaps (a no-op without NaN cells), and drop
low-volume bars. -/
def cleanData (o : Oracle) (cfg : DataProcessingConfig) (df : List Bar) : List Bar :=
  let cleaned := df
  let cleaned :=
    if cfg.remove_outliers then
      let cleaned := clipColumn o cfg.outlier_std_threshold Bar.open_
        (fun b v => { b with open_ := v }) cleaned
      let cleaned := clipColumn o cfg.outlier_std_threshold Bar.high
        (fun b v => { b with high := v }) cleaned
      let cleaned := clipColumn o cfg.outlier_std_threshold Bar.low
        (fun b v => { b with low := v }) cleaned
      clipColumn o cfg.outlier_std_threshold Bar.close
        (fun b v => { b with close := v }) cleaned
    else cleaned
  -- fillna(method="ffill", limit=5) is the identity: bars carry no NaN cells
  let cleaned := cleaned
  if cfg.min_volume_threshold > 0 then
    cleaned.filter fun b => b.volume ≥ cfg.min_volume_threshold
  else cleaned

/-- `HistoricalDataProcessor._normalize_data`: rescale volume by its max
(when positive) and re-derive `high = max(open, high, close)`,
`low = min(open, low, close)`. -/
def normalizeData (cfg : DataProcessingConfig) (df : List Bar) : List Bar :=
  let normalized := df
  let normalized :=
    if cfg.normalize_volume then
      let max_volume := listMaxD (normalized.map Bar.volume)
      if max_volume > 0 then
        normalized.map fun b => { b with volume := b.volume / max_volume }
      else normalized
    else normalized
  normalized.map fun b =>
    { b with high := max (max b.open_ b.high) b.close
             low := min (min b.open_ b.low) b.close }

/-- A row of the enriched frame: the bar plus the derived columns, `none`
standing for a NaN cell produced by a warm-up window. -/
structure EnrichedBar extends Bar where
  returns : Option ℚ := none
  log_returns : Option ℚ := none
  volatility : Option ℚ := none
  volume_ma : Option ℚ := none
  volume_std : Option ℚ := none
  momentum : Option ℚ := none
  sma_10 : Option ℚ := none
  sma_20 : Option ℚ := none
  sma_50 : Option ℚ := none
deriving DecidableEq, Repr

/-- `dropna()` keeps a row iff no cell is NaN; the bar cells are total, so
only the derived columns matter. -/
def derivedAllSome (r : EnrichedBar) : Bool :=
  r.returns.isSome && r.log_returns.isSome && r.volatility.isSome && r.volume_ma.isSome &&
    r.volume_std.isSome && r.momentum.isSome && r.sma_10.isSome && r.sma_20.isSome &&
    r.sma_50.isSome

/-- Row `i` of `_add_technical_indicators`' column assignments.  Faithful to
pandas NaN/warm-up behaviour for frames whose closes are positive (for such
inputs `pct_change` is finite and `log1p` is applied to arguments `> -1`):
`returns`/`log_returns` are NaN on row 0, a `rolling(w)` statistic needs `w`
non-NaN values in its window (for the rolling std over `returns` the window
must additionally avoid the NaN at row 0), and `pct_change(10)` needs 10
rows of history. -/
def enrichRow (o : Oracle) (df : List Bar) (i : ℕ) : EnrichedBar :=
  let closes := df.map Bar.close
  let volumes := df.map Bar.volume
  let returnsAt : ℕ → Option ℚ := fun j =>
    if j = 0 then none
    else some ((closes.getD j 0 - closes.getD (j - 1) 0) / closes.getD (j - 1) 0)
  { toBar := df.getD i default
    returns := returnsAt i
    log_returns := (returnsAt i).map o.log1pQ
    volatility :=
      if 20 ≤ i then
        some (sampleStd o ((List.range 20).map fun k => (returnsAt (i - 19 + k)).getD 0))
      else none
    volume_ma :=
      if 19 ≤ i then some (listMean ((List.range 20).map fun k => volumes.getD (i - 19 + k) 0))
      else none
    volume_std :=
      if 19 ≤ i then
        some (sampleStd o ((List.range 20).map fun k => volumes.getD (i - 19 + k) 0))
      else none
    momentum := if 10 ≤ i then some (closes.getD i 0 / closes.getD (i - 10) 0 - 1) else none
    sma_10 :=
      if 9 ≤ i then some (listMean ((List.range 10).map fun k => closes.getD (i - 9 + k) 0))
      else none
    sma_20 :=
      if 19 ≤ i then some (listMean ((List.range 20).map fun k => closes.getD (i - 19 + k) 0))
      else none
    sma_50 :=
      if 49 ≤ i then some (listMean ((List.range 50).map fun k => closes.getD (i - 49 + k) 0))
      else none }

/-- `HistoricalDataProcessor._add_technical_indicators`: compute the derived
columns row by row, then `dropna()`. -/
def addTechnicalIndicators (o : Oracle) (df : List Bar) : List EnrichedBar :=
  ((List.range df.length).map (enrichRow o df)).filter derivedAllSome

/-- The processed frame: enriched bars (when `add_indicators` is off the
derived columns are simply absent, i.e. `none`). -/
abbrev ProcFrame := List EnrichedBar

def toEnrichedFrame (bars : List Bar) : ProcFrame :=
  bars.map fun b => { toBar := b }

/-- `_cache_key` builds `f"{symbol}_{start:%Y%m%d}_{end:%Y%m%d}"`; the key
is modelled as the `(symbol, start, end)` triple itself (the formatting —
including its collisions inside one calendar day — plays no role in any
claim). -/
abbrev CacheKey := String × ℚ × ℚ

def cacheKeyFn (symbol : String) (start_date end_date : ℚ) : CacheKey :=
  (symbol, start_date, end_date)

/-- The cache blob store: `none` = no entry, `some (.ok df)` = readable
entry, `some (.error ())` = entry whose read raises (parquet corruption). -/
abbrev CacheStore := CacheKey → Option (Except Unit ProcFrame)

/-- `_load_from_cache`: disabled caching or a missing entry is a miss, and a
raising read is caught, logged and degraded to a miss. -/
def loadFromCache (cfg : DataProcessingConfig) (cache : CacheStore) (key : CacheKey) :
    Option ProcFrame :=
  if !cfg.cache_processed_data then none
  else
    match cache key with
    | some (.ok df) => some df
    | some (.error _) => none
    | none => none

/-- The validate/filter/clean/normalize/enrich pipeline of `process_data`
(the code below the cache check).  The `validate_data` flag only gates a
log warning in the source. -/
def processFresh (o : Oracle) (cfg : DataProcessingConfig) (df : List Bar)
    (start_date end_date : Option ℚ) : ProcFrame × DataValidationResult :=
  let validation_result := validateRawData o cfg df
  let processed := df
  let processed :=
    match start_date with
    | some sd => processed.filter fun b => b.ts ≥ sd
    | none => processed
  let processed :=
    match end_date with
    | some ed => processed.filter fun b => b.ts ≤ ed
    | none => processed
  let processed := cleanData o cfg processed
  let processed := normalizeData cfg processed
  let processed :=
    if cfg.add_indicators then addTechnicalIndicators o processed
    else toEnrichedFrame processed
  (processed, validation_result)

/-- `HistoricalDataProcessor.process_data`: with both dates given, a cache
hit returns the cached frame with a fresh all-clear `DataValidationResult`
and performs no validation; otherwise the frame is processed from scratch
and (with both dates given and caching enabled) written back.  The returned
list collects the `_save_to_cache` writes. -/
def processData (o : Oracle) (cfg : DataProcessingConfig) (cache : CacheStore)
    (df : List Bar) (symbol : String) (start_date end_date : Option ℚ) :
    (ProcFrame × DataValidationResult) × List (CacheKey × ProcFrame) :=
  let hit :=
    match start_date, end_date with
    | some sd, some ed => loadFromCache cfg cache (cacheKeyFn symbol sd ed)
    | _, _ => none
  match hit with
  | some cached_data =>
      ((cached_data,
        { is_valid := true, issues := [], gap_locations := [], anomaly_locations := []
          total_missing_values := 0 }), [])
  | none =>
      let (processed, validation_result) := processFresh o cfg df start_date end_date
      let writes :=
        match start_date, end_date with
        | some sd, some ed =>
            if cfg.cache_processed_data then [(cacheKeyFn symbol sd ed, processed)] else []
        | _, _ => []
      ((processed, validation_result), writes)

/-! ### Determinism infrastructure

`validate_trade` is the only point where the backtest touches the risk
manager, and the only risk-manager inputs its decision can read are the
parameters, the length of today's trade history, and the number of open
positions; the wall clock enters solely through the daily reset.  The
following relation and pure decision function capture exactly that
footprint for states with an empty trade history (nothing in the engine
ever appends to it), which is what makes grid search reproducible. -/

/-- The risk-manager state components the simulation can observe, for
states whose trade history is empty (so the clock-driven reset can neither
expire nor retain anything). -/
def RiskCoreEq (s s' : RiskState) : Prop :=
  s.trade_history = [] ∧ s'.trade_history = [] ∧
    s.open_positions = s'.open_positions ∧ s.params = s'.params

/-- Two loop states that agree on everything the simulation's output can
depend on (all fields except the risk manager's daily-P&L/reset bookkeeping). -/
def LoopR (ls ls' : LoopState) : Prop :=
  ls.currentPosition = ls'.currentPosition ∧
    ls.availableCapital = ls'.availableCapital ∧
    ls.equityHistory = ls'.equityHistory ∧
    ls.trades = ls'.trades ∧
    ls.equityCurve = ls'.equityCurve ∧
    RiskCoreEq ls.risk ls'.risk

/-- The decision `validate_trade` reaches when today's trade history is
empty, as a pure function of the risk parameters and the open-position
count (the unused `trade_type` argument is dropped). -/
def pureValidate (params : RiskParameters) (openLen : ℕ)
    (size price stop_loss take_profit : ℚ) : Bool × String :=
  if 0 ≥ params.max_trades_per_day then (false, "Maximum daily trades exceeded")
  else if openLen ≥ params.max_concurrent_trades then
    (false, "Maximum concurrent positions reached")
  else if size > params.max_position_size then (false, "Position size exceeds maximum allowed")
  else if size < params.min_trade_size then (false, "Position size below minimum allowed")
  else if (price = 0 ∧ stop_loss ≠ 0) ∨
      (price ≠ 0 ∧ |(stop_loss - price) / price * 100| > params.emergency_stop_loss) then
    (false, "Stop loss exceeds maximum allowed")
  else if |price - stop_loss| > 0 ∧ |take_profit - price| / |price - stop_loss| < 3/2 then
    (false, "Insufficient risk/reward ratio")
  else (true, "Trade validated")

/-! ## Concrete inputs used by witnesses and counterexamples -/

/-- A constant wall clock (the risk manager's `datetime.now()`). -/
def clock0 : ℕ → ℚ := fun _ => 0

/-- An engine over default strategy/risk parameters with zero fees and zero
slippage, as in the spec's end-to-end scenario. -/
def st0 : EngineState :=
  backtestingEngineNew (momentumStrategyNew none) none
    (some { trading_fees := 0, slippage := 0 })

/-- The spec's end-to-end scenario series: 100 bars, closes constant at 100
through bar 29 and constant at 110 from bar 30 on (a single EMA crossover at
bar 30), with bar 45's low dipping to 100 (a stop-loss breach for the long
entered at 110 with a 1% stop), ample volume throughout. -/
def c1Bar (i : ℕ) : Bar :=
  { ts := i
    open_ := if i < 30 then 100 else 110
    high := if i < 30 then 100 else 110
    low := if i = 45 then 100 else if i < 30 then 100 else 110
    close := if i < 30 then 100 else 110
    volume := 2000 }

def c1Series : List Bar := (List.range 100).map c1Bar

def c1Signals : List SigBar := generateSignals st0.strategy.params c1Series

/-- Strategy parameters the spec calls invalid: long EMA period ≤ short. -/
def invalidStratParams : StrategyParameters :=
  { short_ema_period := 21, long_ema_period := 9 }

/-- An engine constructed with the invalid strategy parameters and a
non-positive initial capital. -/
def stInvalid : EngineState :=
  backtestingEngineNew (momentumStrategyNew (some invalidStratParams)) none
    (some { initial_capital := -5 })

/-- Three flat bars (no crossover ever fires). -/
def bars3 : List Bar := (List.range 3).map fun i =>
  { ts := i, open_ := 100, high := 100, low := 100, close := 100, volume := 2000 }

/-- The `BacktestResults` value `run_backtest` produces on `bars3` under the
invalid configuration: a normal, completed run. -/
def r9 : BacktestResults :=
  { trades := [], equity_curve := none, performance_metrics := [], trade_metrics := []
    drawdown_metrics := [], parameter_values := parameterValues invalidStratParams }

/-- The `BacktestResults` value `run_backtest` produces on an empty series. -/
def r4empty : BacktestResults :=
  { trades := [], equity_curve := none, performance_metrics := [], trade_metrics := []
    drawdown_metrics := [], parameter_values := parameterValues st0.strategy.params }

/-- A risk state sitting exactly at the daily trade cap (10 entries today). -/
def sCap : RiskState :=
  { params := {}, trade_history := List.replicate 10 {}, open_positions := []
    daily_pnl := 0, last_reset := 0 }

/-- A risk state one trade below the daily cap. -/
def sBelow : RiskState :=
  { params := {}, trade_history := List.replicate 9 {}, open_positions := []
    daily_pnl := 0, last_reset := 0 }

/-- A three-bar series whose single crossover at bar 1 opens a position that
is still held at bar 2 (the first mark-to-market of an open position). -/
def sErr : List Bar :=
  [ { ts := 0, open_ := 100, high := 100, low := 100, close := 100, volume := 2000 },
    { ts := 1, open_ := 110, high := 110, low := 110, close := 110, volume := 2000 },
    { ts := 2, open_ := 110, high := 110, low := 110, close := 110, volume := 2000 } ]

/-- Default processing configuration. -/
def cfg0 : DataProcessingConfig := {}

/-- Default configuration with outlier removal disabled. -/
def cfgNoOutlier : DataProcessingConfig := { remove_outliers := false }

/-- 16 bars, fifteen with all prices 0 and one with all prices 16, ample
volume: the price columns have mean 1 and sample std 4, so the first clean
clips 16 to 1 + 3·4 = 13; the re-computed std of the clipped column is
13/4, so a second clean clips 13 further to 169/16. -/
def d16 : List Bar := (List.range 16).map fun i =>
  if i = 15 then { ts := i, open_ := 16, high := 16, low := 16, close := 16, volume := 1 }
  else { ts := i, open_ := 0, high := 0, low := 0, close := 0, volume := 1 }

/-- 50 flat bars with positive closes: exactly the warm-up length the spec
quotes for the enrichment step. -/
def bars50 : List Bar := (List.range 50).map fun i =>
  { ts := i, open_ := 100, high := 100, low := 100, close := 100, volume := 2000 }

/-- A cached frame for the cache-hit witness. -/
def frameW : ProcFrame := toEnrichedFrame bars3

/-- A concrete cache store: a readable entry under ("BTC", 0, 1), a corrupt
entry under ("ETH", 0, 1), nothing else. -/
def cacheW : CacheStore := fun k =>
  if k = ("BTC", 0, 1) then some (.ok frameW)
  else if k = ("ETH", 0, 1) then some (.error ()) else none

/-! ## Claim theorems -/

attribute [local semireducible] Rat.add Rat.sub Rat.mul Rat.inv

/-- **C1** (code_bug evidence).  On the spec's end-to-end scenario —
100 bars, a single EMA crossover at bar 30 (the only bar with a non-zero
crossover flag), a buy intent actually emitted there, and bar 45's low
breaching the intent's stop — `run_backtest` does not return a ledger with
one trade closed at bar 45.  Two slips compound: (a) the engine never
assigns the strategy's `current_position`, so the per-bar exit check
`should_exit_position` answers `(False, "No position")` at the stop-loss
bar 45 (third conjunct); (b) the first mark-to-market of the open position
calls `_update_equity_curve`, which builds `pd.Series` from a two-element
history and a one-element index, raising ValueError, so the run aborts
(final conjunct). -/
theorem c1_scenario_run :
    ((List.range 100).filter fun i =>
        sigChangePos (c1Signals.getD i default).signal_change ||
        sigChangeNeg (c1Signals.getD i default).signal_change) = [30]
    ∧ (getTradeSignal st0.strategy.params c1Signals 30).isSome = true
    ∧ (c1Bar 45).low ≤ ((getTradeSignal st0.strategy.params c1Signals 30).getD
        { ty := "", price := 0, timestamp := 0, take_profit := 0, stop_loss := 0 }).stop_loss
    ∧ shouldExitPosition st0.strategy.current_position c1Signals 45 = (false, "No position")
    ∧ (runBacktest oracle0 clock0 st0 c1Series).2 = .error .seriesIndexMismatch := by
  refine ⟨by decide, by decide, by decide, by decide, by decide⟩

/-- **C9** (code_bug evidence).  With the invalid configuration the spec
says must fail fast (long EMA period 9 ≤ short EMA period 21, initial
capital −5), construction simply stores the parameters — the constructors
perform no validation and have no error outcome — and `run_backtest`
then runs the whole simulation normally, returning a completed result. -/
theorem c9_no_fail_fast :
    momentumStrategyNew (some invalidStratParams) =
      { params := invalidStratParams, current_position := none, last_signal := none }
    ∧ backtestingEngineNew (momentumStrategyNew (some invalidStratParams)) none
        (some { initial_capital := -5 }) = stInvalid
    ∧ (runBacktest oracle0 clock0 stInvalid bars3).2 = .ok r9 := by
  refine ⟨rfl, rfl, by decide⟩

/-- **C4** (counterexample).  On an empty series `run_backtest` completes
and returns *empty* metric maps: no metric key is present at all, so the
claim that every defined metric is present with neutral value 0 fails —
e.g. `total_return`, `win_rate` and `max_drawdown` are absent, not 0. -/
theorem c4_counterexample :
    (runBacktest oracle0 clock0 st0 []).2 = .ok r4empty
    ∧ lookupMetric "total_return" r4empty.performance_metrics = none
    ∧ lookupMetric "win_rate" r4empty.trade_metrics = none
    ∧ lookupMetric "max_drawdown" r4empty.drawdown_metrics = none := by
  refine ⟨by decide, rfl, rfl, rfl⟩

/-- **C4** (amended).  Running `run_backtest` on an empty series — or on any
single-bar series, whose simulation loop from index 1 is likewise empty —
never raises: it returns an empty trade list, no equity curve, and the three
metric maps *empty* (the `{}, {}, {}` early return of `_calculate_metrics`),
rather than populated with neutral zeros. -/
theorem c4_empty_run (o : Oracle) (clock : ℕ → ℚ) (st : EngineState) (b : Bar) :
    (runBacktest o clock st []).2 =
      .ok { trades := [], equity_curve := none, performance_metrics := []
            trade_metrics := [], drawdown_metrics := []
            parameter_values := parameterValues st.strategy.params }
    ∧ (runBacktest o clock st [b]).2 =
      .ok { trades := [], equity_curve := none, performance_metrics := []
            trade_metrics := [], drawdown_metrics := []
            parameter_values := parameterValues st.strategy.params } :=
  ⟨rfl, rfl⟩

/-- **C10** (confirmed).  `validate_trade` is read-only on the risk state
whenever less than 24 hours have elapsed since the last daily reset: the
trade history, open-positions map, daily P&L and reset timestamp are
unchanged by the call, accepted or rejected. -/
theorem c10_validateTrade_readonly (now : ℚ) (s : RiskState) (ty : String)
    (size price stop_loss take_profit : ℚ) (hfresh : now - s.last_reset < 1) :
    (validateTrade now s ty size price stop_loss take_profit).1 = s := by
  have hreset : resetDailyMetrics now s = s := by
    unfold resetDailyMetrics
    rw [if_neg (by push_neg; linarith)]
  unfold validateTrade
  rw [hreset]
  dsimp only
  split_ifs <;> rfl

/-- **C10** witness: a concrete fresh-state call leaves the state intact. -/
theorem c10_witness : (validateTrade 0 sBelow "buy" 100 110 (1089/10) (561/5)).1 = sBelow :=
  c10_validateTrade_readonly 0 sBelow "buy" 100 110 (1089/10) (561/5) (by norm_num [sBelow])

/-- **C5** (confirmed).  Within a fresh daily window, `validate_trade` runs
its six checks in source order with the first failure winning: each
conjunct fixes the earlier checks' outcomes and shows the verdict is the
current check's reason, whatever the later checks would say.  In
particular (conjunct 1) a history at the daily cap rejects *any* intent
with "Maximum daily trades exceeded", and (final conjunct) when every
check passes — e.g. a history at cap − 1 — the intent is accepted with the
reason string "Trade validated".  The stop-distance check divides by the
price: two conjuncts cover it — the finite comparison at a nonzero price,
and the zero-price case, where the infinite numpy quotient rejects the
intent at this very check whenever the stop is nonzero; the checks beyond
it are therefore stated under a nonzero price (at price 0 with a nonzero
stop they are never reached). -/
theorem c5_validateTrade_order (now : ℚ) (s : RiskState) (ty : String)
    (size price stop_loss take_profit : ℚ) (hfresh : now - s.last_reset ≤ 1) :
    (s.trade_history.length ≥ s.params.max_trades_per_day →
      (validateTrade now s ty size price stop_loss take_profit).2 =
        (false, "Maximum daily trades exceeded"))
    ∧ (s.trade_history.length < s.params.max_trades_per_day →
       s.open_positions.length ≥ s.params.max_concurrent_trades →
      (validateTrade now s ty size price stop_loss take_profit).2 =
        (false, "Maximum concurrent positions reached"))
    ∧ (s.trade_history.length < s.params.max_trades_per_day →
       s.open_positions.length < s.params.max_concurrent_trades →
       size > s.params.max_position_size →
      (validateTrade now s ty size price stop_loss take_profit).2 =
        (false, "Position size exceeds maximum allowed"))
    ∧ (s.trade_history.length < s.params.max_trades_per_day →
       s.open_positions.length < s.params.max_concurrent_trades →
       size ≤ s.params.max_position_size → size < s.params.min_trade_size →
      (validateTrade now s ty size price stop_loss take_profit).2 =
        (false, "Position size below minimum allowed"))
    ∧ (s.trade_history.length < s.params.max_trades_per_day →
       s.open_positions.length < s.params.max_concurrent_trades →
       size ≤ s.params.max_position_size → s.params.min_trade_size ≤ size →
       price ≠ 0 →
       |(stop_loss - price) / price * 100| > s.params.emergency_stop_loss →
      (validateTrade now s ty size price stop_loss take_profit).2 =
        (false, "Stop loss exceeds maximum allowed"))
    ∧ (s.trade_history.length < s.params.max_trades_per_day →
       s.open_positions.length < s.params.max_concurrent_trades →
       size ≤ s.params.max_position_size → s.params.min_trade_size ≤ size →
       price = 0 → stop_loss ≠ 0 →
      (validateTrade now s ty size price stop_loss take_profit).2 =
        (false, "Stop loss exceeds maximum allowed"))
    ∧ (s.trade_history.length < s.params.max_trades_per_day →
       s.open_positions.length < s.params.max_concurrent_trades →
       size ≤ s.params.max_position_size → s.params.min_trade_size ≤ size →
       price ≠ 0 →
       |(stop_loss - price) / price * 100| ≤ s.params.emergency_stop_loss →
       (|price - stop_loss| > 0 ∧ |take_profit - price| / |price - stop_loss| < 3/2) →
      (validateTrade now s ty size price stop_loss take_profit).2 =
        (false, "Insufficient risk/reward ratio"))
    ∧ (s.trade_history.length < s.params.max_trades_per_day →
       s.open_positions.length < s.params.max_concurrent_trades →
       size ≤ s.params.max_position_size → s.params.min_trade_size ≤ size →
       price ≠ 0 →
       |(stop_loss - price) / price * 100| ≤ s.params.emergency_stop_loss →
       ¬(|price - stop_loss| > 0 ∧ |take_profit - price| / |price - stop_loss| < 3/2) →
      (validateTrade now s ty size price stop_loss take_profit).2 =
        (true, "Trade validated")) := by
  have hreset : resetDailyMetrics now s = s := by
    unfold resetDailyMetrics
    rw [if_neg (by push_neg; linarith)]
  unfold validateTrade
  rw [hreset]
  dsimp only
  refine ⟨fun h1 => ?_, fun h1 h2 => ?_, fun h1 h2 h3 => ?_, fun h1 h2 h3 h4 => ?_,
    fun h1 h2 h3 h4 hp h5 => ?_, fun h1 h2 h3 h4 hp0 hs => ?_,
    fun h1 h2 h3 h4 hp h5 h6 => ?_, fun h1 h2 h3 h4 hp h5 h6 => ?_⟩
  · rw [if_pos h1]
  · rw [if_neg (by omega), if_pos h2]
  · rw [if_neg (by omega), if_neg (by omega), if_pos h3]
  · rw [if_neg (by omega), if_neg (by omega), if_neg (not_lt.mpr h3), if_pos h4]
  · rw [if_neg (by omega), if_neg (by omega), if_neg (not_lt.mpr h3),
      if_neg (not_lt.mpr h4), if_pos (Or.inr ⟨hp, h5⟩)]
  · rw [if_neg (by omega), if_neg (by omega), if_neg (not_lt.mpr h3),
      if_neg (not_lt.mpr h4), if_pos (Or.inl ⟨hp0, hs⟩)]
  · have hno : ¬((price = 0 ∧ stop_loss ≠ 0) ∨
        (price ≠ 0 ∧ |(stop_loss - price) / price * 100| > s.params.emergency_stop_loss)) := by
      rintro (⟨h0, -⟩ | ⟨-, hgt⟩)
      · exact hp h0
      · exact absurd hgt (not_lt.mpr h5)
    rw [if_neg (by omega), if_neg (by omega), if_neg (not_lt.mpr h3),
      if_neg (not_lt.mpr h4), if_neg hno, if_pos h6]
  · have hno : ¬((price = 0 ∧ stop_loss ≠ 0) ∨
        (price ≠ 0 ∧ |(stop_loss - price) / price * 100| > s.params.emergency_stop_loss)) := by
      rintro (⟨h0, -⟩ | ⟨-, hgt⟩)
      · exact hp h0
      · exact absurd hgt (not_lt.mpr h5)
    rw [if_neg (by omega), if_neg (by omega), if_neg (not_lt.mpr h3),
      if_neg (not_lt.mpr h4), if_neg hno, if_neg h6]

/-- **C5** witness: with default risk parameters (daily cap 10), a state
with 10 trades today rejects a perfectly good intent with the cap reason; a
state with 9 trades today accepts it as "Trade validated" (price 110, stop
108.9, target 112.2: 1% stop distance, 2:1 reward-risk); and at the
degenerate price 0 with stop 1 — where the numpy quotient is infinite — the
same below-cap state rejects at the stop-distance check. -/
theorem c5_witness :
    (validateTrade 0 sCap "buy" 100 110 (1089/10) (561/5)).2 =
      (false, "Maximum daily trades exceeded")
    ∧ (validateTrade 0 sBelow "buy" 100 110 (1089/10) (561/5)).2 =
      (true, "Trade validated")
    ∧ (validateTrade 0 sBelow "buy" 100 0 1 (1/2)).2 =
      (false, "Stop loss exceeds maximum allowed") :=
  ⟨(c5_validateTrade_order 0 sCap "buy" 100 110 (1089/10) (561/5) (by norm_num [sCap])).1
      (by decide),
   (c5_validateTrade_order 0 sBelow "buy" 100 110 (1089/10) (561/5)
        (by norm_num [sBelow])).2.2.2.2.2.2.2 (by decide) (by decide) (by decide) (by decide)
      (by decide) (by decide) (by decide),
   (c5_validateTrade_order 0 sBelow "buy" 100 0 1 (1/2)
        (by norm_num [sBelow])).2.2.2.2.2.1 (by decide) (by decide) (by decide) (by decide)
      rfl (by decide)⟩

/-- Helper: a derived row has all fields non-null exactly when its index is
past the 50-bar warm-up, i.e. `49 ≤ i` (the binding constraint is `sma_50`,
whose first full window ends at row index 49). -/
theorem derivedAllSome_enrichRow (o : Oracle) (df : List Bar) (i : ℕ) :
    derivedAllSome (enrichRow o df i) = decide (49 ≤ i) := by
  by_cases h49 : 49 ≤ i
  · have h0 : ¬(i = 0) := by omega
    have h9 : 9 ≤ i := by omega
    have h10 : 10 ≤ i := by omega
    have h19 : 19 ≤ i := by omega
    have h20 : 20 ≤ i := by omega
    simp [enrichRow, derivedAllSome, h0, h9, h10, h19, h20, h49]
  · simp [enrichRow, derivedAllSome, h49]

/-- Helper: counting the indices of `range n` from `k` on. -/
theorem length_filter_range_le (k n : ℕ) :
    ((List.range n).filter fun i => decide (k ≤ i)).length = n - k := by
  induction n with
  | zero => simp
  | succ n ih =>
    rw [List.range_succ, List.filter_append, List.length_append, ih]
    by_cases h : k ≤ n
    · simp [h]; omega
    · simp [h]; omega

/-- **C3** (counterexample).  A 50-bar series with positive closes — `n`
equal to the claimed warm-up 50 — enriches to 1 row, not `n − 50 = 0`
rows: `dropna` removes only the 49 rows lacking a full 50-bar `sma_50`
window (the window ending at row 49 is already complete). -/
theorem c3_counterexample :
    bars50.length = 50
    ∧ (addTechnicalIndicators oracle0 bars50).length = 1
    ∧ (addTechnicalIndicators oracle0 bars50).length ≠ bars50.length - 50 := by
  refine ⟨by decide, by decide, by decide⟩

/-- **C3** (amended).  For an input series of `n ≥ 49` rows with positive
closes (the positivity keeps the rational embedding faithful to pandas:
`pct_change` stays finite and `log1p` sees arguments above −1), the
enrichment step returns exactly `n − 49` rows — the rows dropped are those
lacking a full 50-bar `sma_50` window, of which there are 49, not 50 — and
no surviving row has a null value in any derived field. -/
theorem c3_enrich_length (o : Oracle) (df : List Bar)
    (_hpos : ∀ b ∈ df, 0 < b.close) (_h49 : 49 ≤ df.length) :
    (addTechnicalIndicators o df).length = df.length - 49
    ∧ ∀ r ∈ addTechnicalIndicators o df, derivedAllSome r = true := by
  constructor
  · unfold addTechnicalIndicators
    rw [List.filter_map, List.length_map,
      show (derivedAllSome ∘ enrichRow o df) = fun i => decide (49 ≤ i) from
        funext fun i => derivedAllSome_enrichRow o df i]
    exact length_filter_range_le 49 df.length
  · intro r hr
    exact List.of_mem_filter hr

/-- **C3** witness: on the 50 flat positive bars the amended claim gives
output length 50 − 49 = 1 with every derived field present. -/
theorem c3_witness :
    (addTechnicalIndicators oracle0 bars50).length = bars50.length - 49
    ∧ ∀ r ∈ addTechnicalIndicators oracle0 bars50, derivedAllSome r = true :=
  c3_enrich_length oracle0 bars50 (by decide) (by decide)

/-- **C8** (counterexample).  Cleaning is not idempotent: on `d16` the
first clean clips the outlier price 16 down to `mean + 3·std = 13`, and a
second clean — recomputing mean and std on the already-clipped data —
clips 13 further to 169/16, so `clean (clean d16) ≠ clean d16`. -/
theorem c8_counterexample :
    ((cleanData oracle0 cfg0 d16).map Bar.close).getD 15 0 = 13
    ∧ ((cleanData oracle0 cfg0 (cleanData oracle0 cfg0 d16)).map Bar.close).getD 15 0 = 169/16
    ∧ cleanData oracle0 cfg0 (cleanData oracle0 cfg0 d16) ≠ cleanData oracle0 cfg0 d16 := by
  refine ⟨by decide, by decide, by decide⟩

/-- **C8** (amended).  With the clip-based outlier removal disabled, the
remaining cleaning steps (all-null row drop and forward fill are identities
on total bar records; the minimum-volume filter is a filter) are
idempotent; with outlier removal enabled the recomputed clip bounds shrink,
and cleaning twice can genuinely differ from cleaning once. -/
theorem c8_clean_idempotent_without_outlier_removal (o : Oracle)
    (cfg : DataProcessingConfig) (df : List Bar) (h : cfg.remove_outliers = false) :
    cleanData o cfg (cleanData o cfg df) = cleanData o cfg df := by
  by_cases hv : cfg.min_volume_threshold > 0
  · simp [cleanData, h, hv, List.filter_filter]
  · simp [cleanData, h, hv]

/-- **C8** witness: concrete idempotence with outlier removal off. -/
theorem c8_witness :
    cleanData oracle0 cfgNoOutlier (cleanData oracle0 cfgNoOutlier d16) =
      cleanData oracle0 cfgNoOutlier d16 :=
  c8_clean_idempotent_without_outlier_removal oracle0 cfgNoOutlier d16 rfl

/-- **C6** (confirmed).  With both dates given and caching enabled:
(1) when the cache entry under the `(symbol, start, end)` key loads
successfully, `process_data` returns the cached frame with a fresh
all-clear `DataValidationResult` (valid, no issues, no gap or anomaly
locations, zero missing values) and performs no write — the raw input is
never consulted, as the statement's independence of `df` shows; (2) when
the cache entry's read raises, the failure is swallowed and the call
behaves exactly like a run against an empty cache, processing from
scratch — it is never fatal. -/
theorem c6_process_data_cache (o : Oracle) (cfg : DataProcessingConfig) (cache : CacheStore)
    (df : List Bar) (symbol : String) (sd ed : ℚ) (frame : ProcFrame)
    (hcfg : cfg.cache_processed_data = true) :
    (cache (cacheKeyFn symbol sd ed) = some (.ok frame) →
      processData o cfg cache df symbol (some sd) (some ed) =
        ((frame, { is_valid := true, issues := [], gap_locations := []
                   anomaly_locations := [], total_missing_values := 0 }), []))
    ∧ (cache (cacheKeyFn symbol sd ed) = some (.error ()) →
      processData o cfg cache df symbol (some sd) (some ed) =
        processData o cfg (fun _ => none) df symbol (some sd) (some ed)) := by
  constructor
  · intro hhit
    simp [processData, loadFromCache, hcfg, hhit]
  · intro hbad
    simp [processData, loadFromCache, hcfg, hbad]

/-- **C6** witness: the concrete store `cacheW` hits for BTC (returning the
cached frame and the all-clear validation) and degrades to from-scratch
processing for the corrupt ETH entry. -/
theorem c6_witness :
    processData oracle0 cfg0 cacheW bars3 "BTC" (some 0) (some 1) =
      ((frameW, { is_valid := true, issues := [], gap_locations := []
                  anomaly_locations := [], total_missing_values := 0 }), [])
    ∧ processData oracle0 cfg0 cacheW bars3 "ETH" (some 0) (some 1) =
        processData oracle0 cfg0 (fun _ => none) bars3 "ETH" (some 0) (some 1) :=
  ⟨(c6_process_data_cache oracle0 cfg0 cacheW bars3 "BTC" 0 1 frameW rfl).1 (by decide),
   (c6_process_data_cache oracle0 cfg0 cacheW bars3 "ETH" 0 1 frameW rfl).2 (by decide)⟩

/-- Helper for **C2**: one loop iteration starting from a state with no
equity-curve Series and a one-element equity history either raises the
Series length-mismatch error unchanged (whenever a position is open: the
appended history has two elements against a one-element index) or
preserves that configuration (the flat branch never touches the curve). -/
theorem simStep_equity (clock : ℕ → ℚ) (bp : BacktestParameters) (sp : StrategyParameters)
    (cp : Option PosSnapshot) (sig : List SigBar) (i : ℕ) (ls : LoopState)
    (hcurve : ls.equityCurve = none) (hhist : ls.equityHistory.length = 1) :
    simStep clock bp sp cp sig i ls = (some .seriesIndexMismatch, ls)
    ∨ ((simStep clock bp sp cp sig i ls).1 = none
       ∧ (simStep clock bp sp cp sig i ls).2.equityCurve = none
       ∧ (simStep clock bp sp cp sig i ls).2.equityHistory.length = 1) := by
  unfold simStep
  cases hpos : ls.currentPosition with
  | some pos =>
    left
    have hupd : ∀ ts v : ℚ, updateEquityCurve ls.equityCurve ls.equityHistory ts v =
        .error .seriesIndexMismatch := by
      intro ts v
      rw [hcurve]
      unfold updateEquityCurve
      simp [hhist]
    simp [hupd]
  | none =>
    right
    cases hsig : getTradeSignal sp sig i with
    | none => simp [hcurve, hhist]
    | some tsg =>
      dsimp only
      split
      · split <;> simp [hcurve, hhist]
      · simp [hcurve, hhist]

/-- Helper for **C2**: along the whole loop, an error can only be the
Series length mismatch, and a completed loop still has no equity curve. -/
theorem simLoop_equity (clock : ℕ → ℚ) (bp : BacktestParameters) (sp : StrategyParameters)
    (cp : Option PosSnapshot) (sig : List SigBar) :
    ∀ (idxs : List ℕ) (ls : LoopState), ls.equityCurve = none →
      ls.equityHistory.length = 1 →
      (∀ ls', simLoop clock bp sp cp sig idxs ls = (none, ls') → ls'.equityCurve = none)
      ∧ (∀ e ls', simLoop clock bp sp cp sig idxs ls = (some e, ls') →
          e = .seriesIndexMismatch) := by
  intro idxs
  induction idxs with
  | nil =>
    intro ls hcurve _
    constructor
    · intro ls' h
      simp only [simLoop, Prod.mk.injEq] at h
      exact h.2 ▸ hcurve
    · intro e ls' h
      simp [simLoop] at h
  | cons i rest ih =>
    intro ls hcurve hhist
    rcases simStep_equity clock bp sp cp sig i ls hcurve hhist with herr | hok
    · constructor
      · intro ls' h
        simp [simLoop, herr] at h
      · intro e ls' h
        simp only [simLoop, herr, Prod.mk.injEq] at h
        obtain ⟨h1, -⟩ := h
        exact (Option.some.inj h1).symm
    · rcases hstep : simStep clock bp sp cp sig i ls with ⟨oe, ls₁⟩
      rw [hstep] at hok
      obtain ⟨h1, h2, h3⟩ := hok
      dsimp only at h1 h2 h3
      subst h1
      constructor
      · intro ls' h
        simp only [simLoop, hstep] at h
        exact (ih ls₁ h2 h3).1 ls' h
      · intro e ls' h
        simp only [simLoop, hstep] at h
        exact (ih ls₁ h2 h3).2 e ls' h

/-- **C2** (amended).  For every oracle, clock, engine state and input
series: if `run_backtest` completes, its equity curve is `None` (so
`_calculate_metrics` takes its `not None` early-out and never evaluates the
truthiness of a populated Series), and if it raises, the exception is the
pandas Series *constructor* length-mismatch raised inside
`_update_equity_curve` — the very first mark-to-market appends to a history
that already holds the initial capital and passes a two-element data list
with a one-element index.  A multi-sample equity curve therefore never
exists, and the `not self.equity_curve` expression in `_calculate_metrics`
is never what raises. -/
theorem c2_run_raises_before_metrics (o : Oracle) (clock : ℕ → ℚ) (st : EngineState)
    (data : List Bar) :
    (∀ r, (runBacktest o clock st data).2 = .ok r → r.equity_curve = none)
    ∧ (∀ e, (runBacktest o clock st data).2 = .error e → e = .seriesIndexMismatch) := by
  have key := simLoop_equity clock st.params st.strategy.params st.strategy.current_position
    (generateSignals st.strategy.params data)
    (List.range' 1 ((generateSignals st.strategy.params data).length - 1))
    { risk := st.risk, currentPosition := none
      availableCapital := st.params.initial_capital
      equityHistory := [st.params.initial_capital]
      trades := [], equityCurve := none } rfl rfl
  constructor
  · intro r hres
    unfold runBacktest at hres
    dsimp only at hres
    split at hres
    · simp at hres
    · next ls heq =>
      have hcur := key.1 ls heq
      cases hposn : ls.currentPosition with
      | some pos =>
        rw [hposn] at hres
        dsimp only at hres
        rw [hcur] at hres
        simp only [calculateMetrics] at hres
        obtain rfl := Except.ok.inj hres
        rfl
      | none =>
        rw [hposn] at hres
        dsimp only at hres
        rw [hcur] at hres
        simp only [calculateMetrics] at hres
        obtain rfl := Except.ok.inj hres
        rfl
  · intro e hres
    unfold runBacktest at hres
    dsimp only at hres
    split at hres
    · next e' ls heq =>
      have he := Except.error.inj hres
      subst he
      exact key.2 _ ls heq
    · next ls heq =>
      have hcur := key.1 ls heq
      cases hposn : ls.currentPosition with
      | some pos =>
        rw [hposn] at hres
        dsimp only at hres
        rw [hcur] at hres
        simp [calculateMetrics] at hres
      | none =>
        rw [hposn] at hres
        dsimp only at hres
        rw [hcur] at hres
        simp [calculateMetrics] at hres

/-- **C2** (counterexample).  On `sErr` — crossover at bar 1 opens a
position, bar 2 marks it to market — the trade ledger would be non-empty
and the accumulated equity history multi-sample, and the run does raise;
but the exception is the Series length mismatch from
`_update_equity_curve`, not the ambiguous-truthiness ValueError the claim
attributes to `not self.equity_curve` in `_calculate_metrics`. -/
theorem c2_counterexample :
    (runBacktest oracle0 clock0 st0 sErr).2 = .error .seriesIndexMismatch
    ∧ EngineError.seriesIndexMismatch ≠ EngineError.ambiguousSeriesTruth := by
  refine ⟨by decide, by decide⟩

/-- **C2** witness: the amended theorem applied to the completed empty-series
run, whose equity curve is indeed `None`. -/
theorem c2_witness : r4empty.equity_curve = none :=
  (c2_run_raises_before_metrics oracle0 clock0 st0 []).1 r4empty (by decide)

/-- Helper for **C7**: whatever the clock says, the daily reset keeps an
empty history empty and never touches the open positions or parameters. -/
theorem resetDailyMetrics_core (n : ℚ) (s : RiskState) (h : s.trade_history = []) :
    (resetDailyMetrics n s).trade_history = []
    ∧ (resetDailyMetrics n s).open_positions = s.open_positions
    ∧ (resetDailyMetrics n s).params = s.params := by
  unfold resetDailyMetrics
  split <;> simp [h]

/-- Helper for **C7**: on a state with empty trade history, `validate_trade`
decides by `pureValidate` of the risk core — independent of the clock and of
the daily-P&L/reset bookkeeping — and its returned state still has an empty
history and the same open positions and parameters. -/
theorem validateTrade_hist_nil (n : ℚ) (s : RiskState) (ty : String)
    (size price stop_loss take_profit : ℚ) (h : s.trade_history = []) :
    (validateTrade n s ty size price stop_loss take_profit).1.trade_history = []
    ∧ (validateTrade n s ty size price stop_loss take_profit).1.open_positions =
        s.open_positions
    ∧ (validateTrade n s ty size price stop_loss take_profit).1.params = s.params
    ∧ (validateTrade n s ty size price stop_loss take_profit).2 =
        pureValidate s.params s.open_positions.length size price stop_loss take_profit := by
  obtain ⟨ra, rb, rc⟩ := resetDailyMetrics_core n s h
  unfold validateTrade
  dsimp only
  rw [ra, rb, rc]
  simp only [List.length_nil]
  unfold pureValidate
  refine ⟨?_, ?_, ?_, ?_⟩ <;> · split_ifs <;> simp [ra, rb, rc]

/-- Helper for **C7**: a loop iteration run under two different clocks from
two `LoopR`-related states raises the same error (or none) and yields
`LoopR`-related states: the clock and the risk manager's P&L/reset fields
never influence anything the simulation output can observe. -/
theorem simStep_congr (c c' : ℕ → ℚ) (bp : BacktestParameters) (sp : StrategyParameters)
    (cp : Option PosSnapshot) (sig : List SigBar) (i : ℕ) (ls ls' : LoopState)
    (h : LoopR ls ls') :
    (simStep c bp sp cp sig i ls).1 = (simStep c' bp sp cp sig i ls').1
    ∧ LoopR (simStep c bp sp cp sig i ls).2 (simStep c' bp sp cp sig i ls').2 := by
  obtain ⟨hcp, hcap, hhist, htr, hcur, hrisk⟩ := h
  obtain ⟨hh, hh', hopen, hparams⟩ := hrisk
  unfold simStep
  rw [hcp, hcap, hhist, htr, hcur]
  cases hpos : ls'.currentPosition with
  | some pos =>
    dsimp only
    cases hupd : updateEquityCurve ls'.equityCurve ls'.equityHistory
        (sig.getD i default).ts
        (ls'.availableCapital +
          (pos.size * (sig.getD i default).close -
            if bp.include_fees = true then
              pos.size * (sig.getD i default).close * bp.trading_fees
            else 0)) with
    | error e =>
      exact ⟨rfl, hcp, hcap, hhist, htr, hcur, hh, hh', hopen, hparams⟩
    | ok p =>
      obtain ⟨eh, curve⟩ := p
      dsimp only
      by_cases hexit : (shouldExitPosition cp sig i).1 = true
      · rw [if_pos hexit, if_pos hexit]
        exact ⟨rfl, rfl, rfl, rfl, rfl, rfl, hh, hh', hopen, hparams⟩
      · rw [if_neg hexit, if_neg hexit]
        exact ⟨rfl, rfl, rfl, rfl, rfl, rfl, hh, hh', hopen, hparams⟩
  | none =>
    dsimp only
    cases hsig : getTradeSignal sp sig i with
    | none =>
      exact ⟨rfl, hcp, hcap, hhist, htr, hcur, hh, hh', hopen, hparams⟩
    | some tsg =>
      dsimp only
      rcases hvA : validateTrade (c i) ls.risk tsg.ty
          (ls'.availableCapital * sp.position_size_pct / 100) tsg.price tsg.stop_loss
          tsg.take_profit with ⟨riskA, decA⟩
      rcases hvB : validateTrade (c' i) ls'.risk tsg.ty
          (ls'.availableCapital * sp.position_size_pct / 100) tsg.price tsg.stop_loss
          tsg.take_profit with ⟨riskB, decB⟩
      have vA := validateTrade_hist_nil (c i) ls.risk tsg.ty
        (ls'.availableCapital * sp.position_size_pct / 100) tsg.price tsg.stop_loss
        tsg.take_profit hh
      have vB := validateTrade_hist_nil (c' i) ls'.risk tsg.ty
        (ls'.availableCapital * sp.position_size_pct / 100) tsg.price tsg.stop_loss
        tsg.take_profit hh'
      rw [hvA] at vA
      rw [hvB] at vB
      dsimp only at vA vB
      obtain ⟨vA1, vA2, vA3, vA4⟩ := vA
      obtain ⟨vB1, vB2, vB3, vB4⟩ := vB
      have hcore : riskA.trade_history = [] ∧ riskB.trade_history = [] ∧
          riskA.open_positions = riskB.open_positions ∧ riskA.params = riskB.params := by
        refine ⟨vA1, vB1, ?_, ?_⟩
        · rw [vA2, vB2, hopen]
        · rw [vA3, vB3, hparams]
      have hdec : decA = decB := by rw [vA4, vB4, hopen, hparams]
      dsimp only
      rw [hdec]
      by_cases hok : decB.1 = true
      · rw [if_pos hok, if_pos hok]
        cases hex : executeTrade bp sp tsg.ty tsg.price (sig.getD i default).ts
            ls'.availableCapital with
        | none =>
          exact ⟨rfl, rfl, rfl, rfl, rfl, rfl, hcore⟩
        | some tr =>
          exact ⟨rfl, rfl, rfl, rfl, rfl, rfl, hcore⟩
      · rw [if_neg hok, if_neg hok]
        exact ⟨rfl, rfl, rfl, rfl, rfl, rfl, hcore⟩

/-- Helper for **C7**: `simStep` never modifies the risk core (with an empty
history): `validate_trade` is its only risk-manager interaction and that
call is core-preserving. -/
theorem simStep_pres (c : ℕ → ℚ) (bp : BacktestParameters) (sp : StrategyParameters)
    (cp : Option PosSnapshot) (sig : List SigBar) (i : ℕ) (ls : LoopState)
    (h : ls.risk.trade_history = []) :
    (simStep c bp sp cp sig i ls).2.risk.trade_history = []
    ∧ (simStep c bp sp cp sig i ls).2.risk.open_positions = ls.risk.open_positions
    ∧ (simStep c bp sp cp sig i ls).2.risk.params = ls.risk.params := by
  unfold simStep
  cases hpos : ls.currentPosition with
  | some pos =>
    dsimp only
    cases hupd : updateEquityCurve ls.equityCurve ls.equityHistory
        (sig.getD i default).ts
        (ls.availableCapital +
          (pos.size * (sig.getD i default).close -
            if bp.include_fees = true then
              pos.size * (sig.getD i default).close * bp.trading_fees
            else 0)) with
    | error e => exact ⟨h, rfl, rfl⟩
    | ok p =>
      obtain ⟨eh, curve⟩ := p
      dsimp only
      by_cases hexit : (shouldExitPosition cp sig i).1 = true
      · rw [if_pos hexit]
        exact ⟨h, rfl, rfl⟩
      · rw [if_neg hexit]
        exact ⟨h, rfl, rfl⟩
  | none =>
    dsimp only
    cases hsig : getTradeSignal sp sig i with
    | none => exact ⟨h, rfl, rfl⟩
    | some tsg =>
      dsimp only
      rcases hv : validateTrade (c i) ls.risk tsg.ty
          (ls.availableCapital * sp.position_size_pct / 100) tsg.price tsg.stop_loss
          tsg.take_profit with ⟨risk, dec⟩
      have v := validateTrade_hist_nil (c i) ls.risk tsg.ty
        (ls.availableCapital * sp.position_size_pct / 100) tsg.price tsg.stop_loss
        tsg.take_profit h
      rw [hv] at v
      dsimp only at v
      obtain ⟨v1, v2, v3, -⟩ := v
      dsimp only
      by_cases hok : dec.1 = true
      · rw [if_pos hok]
        cases hex : executeTrade bp sp tsg.ty tsg.price (sig.getD i default).ts
            ls.availableCapital with
        | none => exact ⟨v1, v2, v3⟩
        | some tr => exact ⟨v1, v2, v3⟩
      · rw [if_neg hok]
        exact ⟨v1, v2, v3⟩

/-- Helper for **C7**: `simLoop` preserves the risk core. -/
theorem simLoop_pres (c : ℕ → ℚ) (bp : BacktestParameters) (sp : StrategyParameters)
    (cp : Option PosSnapshot) (sig : List SigBar) :
    ∀ (idxs : List ℕ) (ls : LoopState), ls.risk.trade_history = [] →
    (simLoop c bp sp cp sig idxs ls).2.risk.trade_history = []
    ∧ (simLoop c bp sp cp sig idxs ls).2.risk.open_positions = ls.risk.open_positions
    ∧ (simLoop c bp sp cp sig idxs ls).2.risk.params = ls.risk.params := by
  intro idxs
  induction idxs with
  | nil =>
    intro ls h
    exact ⟨h, rfl, rfl⟩
  | cons i rest ih =>
    intro ls h
    obtain ⟨p1, p2, p3⟩ := simStep_pres c bp sp cp sig i ls h
    rcases hA : simStep c bp sp cp sig i ls with ⟨oe, ls₁⟩
    rw [hA] at p1 p2 p3
    dsimp only at p1 p2 p3
    simp only [simLoop, hA]
    cases oe with
    | some e => exact ⟨p1, p2, p3⟩
    | none =>
      obtain ⟨q1, q2, q3⟩ := ih ls₁ p1
      exact ⟨q1, q2.trans p2, q3.trans p3⟩

/-- Helper for **C7**: the whole bar loop run under two clocks from two
related states raises identically and ends in related states. -/
theorem simLoop_congr (c c' : ℕ → ℚ) (bp : BacktestParameters) (sp : StrategyParameters)
    (cp : Option PosSnapshot) (sig : List SigBar) :
    ∀ (idxs : List ℕ) (ls ls' : LoopState), LoopR ls ls' →
    (simLoop c bp sp cp sig idxs ls).1 = (simLoop c' bp sp cp sig idxs ls').1
    ∧ LoopR (simLoop c bp sp cp sig idxs ls).2 (simLoop c' bp sp cp sig idxs ls').2 := by
  intro idxs
  induction idxs with
  | nil =>
    intro ls ls' h
    exact ⟨rfl, h⟩
  | cons i rest ih =>
    intro ls ls' h
    obtain ⟨h1, h2⟩ := simStep_congr c c' bp sp cp sig i ls ls' h
    rcases hA : simStep c bp sp cp sig i ls with ⟨oeA, lsA⟩
    rcases hB : simStep c' bp sp cp sig i ls' with ⟨oeB, lsB⟩
    rw [hA, hB] at h1 h2
    dsimp only at h1 h2
    subst h1
    simp only [simLoop, hA, hB]
    cases oeA with
    | some e => exact ⟨rfl, h2⟩
    | none => exact ih lsA lsB h2

/-- Helper for **C7**: one backtest run leaves the strategy object and the
backtest parameters untouched and preserves the risk core. -/
theorem runBacktest_pres (o : Oracle) (c : ℕ → ℚ) (st : EngineState) (data : List Bar)
    (h : st.risk.trade_history = []) :
    (runBacktest o c st data).1.strategy = st.strategy
    ∧ (runBacktest o c st data).1.params = st.params
    ∧ RiskCoreEq (runBacktest o c st data).1.risk st.risk := by
  obtain ⟨p1, p2, p3⟩ := simLoop_pres c st.params st.strategy.params
    st.strategy.current_position (generateSignals st.strategy.params data)
    (List.range' 1 ((generateSignals st.strategy.params data).length - 1))
    { risk := st.risk, currentPosition := none
      availableCapital := st.params.initial_capital
      equityHistory := [st.params.initial_capital]
      trades := [], equityCurve := none } h
  unfold runBacktest
  dsimp only
  rcases hA : simLoop c st.params st.strategy.params st.strategy.current_position
      (generateSignals st.strategy.params data)
      (List.range' 1 ((generateSignals st.strategy.params data).length - 1))
      { risk := st.risk, currentPosition := none
        availableCapital := st.params.initial_capital
        equityHistory := [st.params.initial_capital]
        trades := [], equityCurve := none } with ⟨oe, ls⟩
  rw [hA] at p1 p2 p3
  dsimp only at p1 p2 p3
  cases oe with
  | some e => exact ⟨rfl, rfl, p1, h, p2, p3⟩
  | none =>
    dsimp only
    cases hposn : ls.currentPosition with
    | some pos =>
      dsimp only
      cases hm : calculateMetrics o ls.equityCurve
          (ls.trades ++
            [closeTrade pos
              (applySlippage st.params
                ((generateSignals st.strategy.params data).getD
                  ((generateSignals st.strategy.params data).length - 1) default).close
                (if pos.ty = "buy" then "sell" else "buy"))
              ((generateSignals st.strategy.params data).getD
                ((generateSignals st.strategy.params data).length - 1) default).ts]) with
      | error e => exact ⟨rfl, rfl, p1, h, p2, p3⟩
      | ok m =>
        obtain ⟨pm, tm, dm⟩ := m
        exact ⟨rfl, rfl, p1, h, p2, p3⟩
    | none =>
      dsimp only
      cases hm : calculateMetrics o ls.equityCurve ls.trades with
      | error e => exact ⟨rfl, rfl, p1, h, p2, p3⟩
      | ok m =>
        obtain ⟨pm, tm, dm⟩ := m
        exact ⟨rfl, rfl, p1, h, p2, p3⟩

/-- Helper for **C7**: two backtest runs under different clocks, from states
with equal strategy objects and backtest parameters and related risk cores,
return identical results (the same `BacktestResults` or the same raised
error). -/
theorem runBacktest_congr (o : Oracle) (c c' : ℕ → ℚ) (st st' : EngineState) (data : List Bar)
    (hstrat : st.strategy = st'.strategy) (hbp : st.params = st'.params)
    (hrisk : RiskCoreEq st.risk st'.risk) :
    (runBacktest o c st data).2 = (runBacktest o c' st' data).2 := by
  obtain ⟨hr1, hr2, hr3, hr4⟩ := hrisk
  unfold runBacktest
  dsimp only
  rw [hstrat, hbp]
  obtain ⟨h1, h2⟩ := simLoop_congr c c' st'.params st'.strategy.params
    st'.strategy.current_position (generateSignals st'.strategy.params data)
    (List.range' 1 ((generateSignals st'.strategy.params data).length - 1))
    { risk := st.risk, currentPosition := none
      availableCapital := st'.params.initial_capital
      equityHistory := [st'.params.initial_capital]
      trades := [], equityCurve := none }
    { risk := st'.risk, currentPosition := none
      availableCapital := st'.params.initial_capital
      equityHistory := [st'.params.initial_capital]
      trades := [], equityCurve := none }
    ⟨rfl, rfl, rfl, rfl, rfl, hr1, hr2, hr3, hr4⟩
  rcases hA : simLoop c st'.params st'.strategy.params st'.strategy.current_position
      (generateSignals st'.strategy.params data)
      (List.range' 1 ((generateSignals st'.strategy.params data).length - 1))
      { risk := st.risk, currentPosition := none
        availableCapital := st'.params.initial_capital
        equityHistory := [st'.params.initial_capital]
        trades := [], equityCurve := none } with ⟨oeA, lsA⟩
  rcases hB : simLoop c' st'.params st'.strategy.params st'.strategy.current_position
      (generateSignals st'.strategy.params data)
      (List.range' 1 ((generateSignals st'.strategy.params data).length - 1))
      { risk := st'.risk, currentPosition := none
        availableCapital := st'.params.initial_capital
        equityHistory := [st'.params.initial_capital]
        trades := [], equityCurve := none } with ⟨oeB, lsB⟩
  rw [hA, hB] at h1 h2
  dsimp only at h1 h2
  subst h1
  obtain ⟨q1, q2, q3, q4, q5, -⟩ := h2
  cases oeA with
  | some e => rfl
  | none =>
    dsimp only
    rw [q1, q2, q3, q4, q5]
    cases hposn : lsB.currentPosition with
    | some pos =>
      dsimp only
      rcases hm : calculateMetrics o _ _ with e | m
      · rfl
      · obtain ⟨pm, tmm, dm⟩ := m
        rfl
    | none =>
      dsimp only
      simp only [q2, q3, q4, q5]
      rcases hm : calculateMetrics o _ _ with e | m
      · rfl
      · obtain ⟨pm, tmm, dm⟩ := m
        rfl

/-- Helper for **C7**: the trial loop of `optimize_strategy` leaves the
strategy's position tracker and last signal, the backtest parameters, and
the risk core as it found them (it only overwrites `strategy.params` and
the per-run `trades`/`equity_curve`). -/
theorem optimizeGo_pres (o : Oracle) (c : ℕ → ℚ) (data : List Bar) (metric : String)
    (keys : List StratField) :
    ∀ (combos : List (List ℚ)) (st : EngineState) (best : OptBest),
      st.risk.trade_history = [] →
      (optimizeGo o c data metric keys combos st best).1.strategy.current_position =
        st.strategy.current_position
      ∧ (optimizeGo o c data metric keys combos st best).1.strategy.last_signal =
          st.strategy.last_signal
      ∧ (optimizeGo o c data metric keys combos st best).1.params = st.params
      ∧ RiskCoreEq (optimizeGo o c data metric keys combos st best).1.risk st.risk := by
  intro combos
  induction combos with
  | nil =>
    intro st best h
    exact ⟨rfl, rfl, rfl, h, h, rfl, rfl⟩
  | cons combo rest ih =>
    intro st best h
    simp only [optimizeGo]
    obtain ⟨rp1, rp2, rp3⟩ := runBacktest_pres o c
      { st with strategy := { st.strategy with params := stratParamsOfDict (keys.zip combo) } }
      data h
    rcases hr : runBacktest o c
        { st with strategy := { st.strategy with params := stratParamsOfDict (keys.zip combo) } }
        data with ⟨st3, res⟩
    rw [hr] at rp1 rp2 rp3
    dsimp only at rp1 rp2 rp3
    have hcp3 : st3.strategy.current_position = st.strategy.current_position := by rw [rp1]
    have hls3 : st3.strategy.last_signal = st.strategy.last_signal := by rw [rp1]
    cases res with
    | error e => exact ⟨hcp3, hls3, rp2, rp3⟩
    | ok results =>
      dsimp only
      by_cases hgt : optGt (lookupMetric metric results.performance_metrics) best.score = true
      · rw [if_pos hgt]
        obtain ⟨i1, i2, i3, i4⟩ := ih st3
          { params := keys.zip combo, results := some results
            score := lookupMetric metric results.performance_metrics } rp3.1
        exact ⟨i1.trans hcp3, i2.trans hls3, i3.trans rp2,
          i4.1, h, i4.2.2.1.trans rp3.2.2.1, i4.2.2.2.trans rp3.2.2.2⟩
      · rw [if_neg hgt]
        obtain ⟨i1, i2, i3, i4⟩ := ih st3 best rp3.1
        exact ⟨i1.trans hcp3, i2.trans hls3, i3.trans rp2,
          i4.1, h, i4.2.2.1.trans rp3.2.2.1, i4.2.2.2.trans rp3.2.2.2⟩

/-- Helper for **C7**: the trial loop run under two clocks, from two states
agreeing on everything a trial can observe, returns identical best
parameters and best results. -/
theorem optimizeGo_congr (o : Oracle) (c c' : ℕ → ℚ) (data : List Bar) (metric : String)
    (keys : List StratField) :
    ∀ (combos : List (List ℚ)) (st st' : EngineState) (best : OptBest),
      st.strategy.current_position = st'.strategy.current_position →
      st.strategy.last_signal = st'.strategy.last_signal →
      st.params = st'.params → RiskCoreEq st.risk st'.risk →
      (optimizeGo o c data metric keys combos st best).2 =
        (optimizeGo o c' data metric keys combos st' best).2 := by
  intro combos
  induction combos with
  | nil =>
    intro st st' best _ _ _ _
    rfl
  | cons combo rest ih =>
    intro st st' best hcp hls hbp hrisk
    simp only [optimizeGo]
    have hstrat2 : ({ st.strategy with params := stratParamsOfDict (keys.zip combo) }
        : StrategyState) =
        { st'.strategy with params := stratParamsOfDict (keys.zip combo) } := by
      dsimp only
      rw [hcp, hls]
    have hrun := runBacktest_congr o c c'
      { st with strategy := { st.strategy with params := stratParamsOfDict (keys.zip combo) } }
      { st' with strategy := { st'.strategy with params := stratParamsOfDict (keys.zip combo) } }
      data hstrat2 hbp hrisk
    obtain ⟨rpA1, rpA2, rpA3⟩ := runBacktest_pres o c
      { st with strategy := { st.strategy with params := stratParamsOfDict (keys.zip combo) } }
      data hrisk.1
    obtain ⟨rpB1, rpB2, rpB3⟩ := runBacktest_pres o c'
      { st' with strategy := { st'.strategy with params := stratParamsOfDict (keys.zip combo) } }
      data hrisk.2.1
    rcases hrA : runBacktest o c
        { st with strategy := { st.strategy with params := stratParamsOfDict (keys.zip combo) } }
        data with ⟨stA3, resA⟩
    rcases hrB : runBacktest o c'
        { st' with strategy := { st'.strategy with params := stratParamsOfDict (keys.zip combo) } }
        data with ⟨stB3, resB⟩
    rw [hrA, hrB] at hrun
    rw [hrA] at rpA1 rpA2 rpA3
    rw [hrB] at rpB1 rpB2 rpB3
    dsimp only at hrun rpA1 rpA2 rpA3 rpB1 rpB2 rpB3
    subst hrun
    have hinv1 : stA3.strategy.current_position = stB3.strategy.current_position := by
      rw [rpA1, rpB1]
      exact hcp
    have hinv2 : stA3.strategy.last_signal = stB3.strategy.last_signal := by
      rw [rpA1, rpB1]
      exact hls
    have hinv3 : stA3.params = stB3.params := by rw [rpA2, rpB2]; exact hbp
    have hinv4 : RiskCoreEq stA3.risk stB3.risk :=
      ⟨rpA3.1, rpB3.1,
       (rpA3.2.2.1.trans hrisk.2.2.1).trans rpB3.2.2.1.symm,
       (rpA3.2.2.2.trans hrisk.2.2.2).trans rpB3.2.2.2.symm⟩
    cases resA with
    | error e => rfl
    | ok results =>
      dsimp only
      by_cases hgt : optGt (lookupMetric metric results.performance_metrics) best.score = true
      · rw [if_pos hgt, if_pos hgt]
        exact ih stA3 stB3
          { params := keys.zip combo, results := some results
            score := lookupMetric metric results.performance_metrics }
          hinv1 hinv2 hinv3 hinv4
      · rw [if_neg hgt, if_neg hgt]
        exact ih stA3 stB3 best hinv1 hinv2 hinv3 hinv4

/-- **C7** (confirmed).  For a fixed input series, parameter grid and
metric, and an engine whose risk manager has no recorded trades (as a
freshly constructed engine does; the simulation itself never records any),
running `optimize_strategy` twice in succession on the same engine — under
arbitrary and different wall clocks — returns identical best parameters and
identical best results: the search is a deterministic function of the
series and grid, and no mutable state left over from the first run (the
overwritten `strategy.params`, the per-run `trades`/`equity_curve`, or the
risk manager's clock-driven daily-reset bookkeeping) influences the second. -/
theorem c7_optimize_deterministic (o : Oracle) (c1 c2 : ℕ → ℚ) (st : EngineState)
    (data : List Bar) (grid : List (StratField × List ℚ)) (metric : String)
    (h : st.risk.trade_history = []) :
    (optimizeStrategy o c2 (optimizeStrategy o c1 st data grid metric).1 data grid metric).2
      = (optimizeStrategy o c1 st data grid metric).2 := by
  unfold optimizeStrategy
  obtain ⟨p1, p2, p3, pr⟩ := optimizeGo_pres o c1 data metric (grid.map Prod.fst)
    (cartProduct (grid.map Prod.snd)) st { params := [], results := none, score := none } h
  exact optimizeGo_congr o c2 c1 data metric (grid.map Prod.fst)
    (cartProduct (grid.map Prod.snd))
    (optimizeGo o c1 data metric (grid.map Prod.fst) (cartProduct (grid.map Prod.snd)) st
      { params := [], results := none, score := none }).1 st
    { params := [], results := none, score := none }
    p1 p2 p3 ⟨pr.1, h, pr.2.2.1, pr.2.2.2⟩

/-- **C7** witness: a concrete double run — default engine, the spec's
2 × 2 grid over the EMA periods, metric `sharpe_ratio`, two different
clocks — returns identical results. -/
theorem c7_witness :
    (optimizeStrategy oracle0 (fun i => (i : ℚ) + 5)
        (optimizeStrategy oracle0 clock0 st0 bars3
          [(StratField.shortEmaPeriod, [5, 9]), (StratField.longEmaPeriod, [20, 21])]
          "sharpe_ratio").1
        bars3 [(StratField.shortEmaPeriod, [5, 9]), (StratField.longEmaPeriod, [20, 21])]
        "sharpe_ratio").2
      = (optimizeStrategy oracle0 clock0 st0 bars3
          [(StratField.shortEmaPeriod, [5, 9]), (StratField.longEmaPeriod, [20, 21])]
          "sharpe_ratio").2 :=
  c7_optimize_deterministic oracle0 clock0 (fun i => (i : ℚ) + 5) st0 bars3
    [(StratField.shortEmaPeriod, [5, 9]), (StratField.longEmaPeriod, [20, 21])]
    "sharpe_ratio" rfl

end AlgoTrading
